import Mathlib

/-!
Verification development for the inbound webhook authentication and
session/token lifecycle subsystem of an Eloqua cloud-app adapter.

The Python source is shallowly embedded: strings are encoded to UTF-8 byte
lists (Nat values below 256), machine words are Nat with explicit reduction
modulo 2^32, clock readings are Int seconds, and every stateful operation
is written as an explicit state-passing function.  Fallible Python code
(statements that can raise) returns Except or a result type with an error
constructor carrying the Python exception name.

The document store (MongoDB) is an external collaborator.  It is modelled
as in-memory lists of records, with the TTL guarantee the design requires
of the real store (an expired document is unreadable): a read filters out
records whose expiry has passed.  The external OAuth token endpoint and
identity endpoint are modelled as inputs supplied by the environment.
-/

/-- Reduce a natural number modulo 2^32 (32-bit word arithmetic). -/
def w32 (n : Nat) : Nat := n % 4294967296

/-- Rotate a 32-bit word left by k bits. -/
def rotl (k n : Nat) : Nat := w32 ((n <<< k) ||| (n >>> (32 - k)))

/-- UTF-8 encoding of a single character, as a list of byte values. -/
def utf8Bytes (c : Char) : List Nat :=
  let n := c.toNat
  if n < 128 then [n]
  else if n < 2048 then [192 ||| (n >>> 6), 128 ||| (n &&& 63)]
  else if n < 65536 then [224 ||| (n >>> 12), 128 ||| ((n >>> 6) &&& 63), 128 ||| (n &&& 63)]
  else [240 ||| (n >>> 18), 128 ||| ((n >>> 12) &&& 63), 128 ||| ((n >>> 6) &&& 63), 128 ||| (n &&& 63)]

/-- UTF-8 bytes of a string (the str.encode call in the source). -/
def strBytes (s : String) : List Nat := s.data.flatMap utf8Bytes

/-- Big-endian 32-bit words from a list of bytes (groups of four). -/
def beWords : List Nat → List Nat
  | a :: b :: c :: d :: rest => (((a * 256 + b) * 256 + c) * 256 + d) :: beWords rest
  | _ => []

/-- Big-endian 8-byte encoding of the bit length for SHA-1 padding. -/
def be8len (nbits : Nat) : List Nat :=
  [(nbits >>> 56) % 256, (nbits >>> 48) % 256, (nbits >>> 40) % 256, (nbits >>> 32) % 256,
   (nbits >>> 24) % 256, (nbits >>> 16) % 256, (nbits >>> 8) % 256, nbits % 256]

/-- SHA-1 message padding: append 0x80, zero bytes, and the 64-bit bit length. -/
def sha1Pad (msg : List Nat) : List Nat :=
  msg ++ [128] ++ List.replicate ((119 - msg.length % 64) % 64) 0 ++ be8len (8 * msg.length)

/-- One step of the SHA-1 message schedule, keeping words most recent first. -/
def scheduleStep (rev : List Nat) : List Nat :=
  rotl 1 (rev.getD 2 0 ^^^ rev.getD 7 0 ^^^ rev.getD 13 0 ^^^ rev.getD 15 0) :: rev

/-- Iterate the schedule step n times. -/
def scheduleRev (rev : List Nat) : Nat → List Nat
  | 0 => rev
  | n + 1 => scheduleRev (scheduleStep rev) n

/-- One SHA-1 compression round at index i with schedule word w. -/
def sha1Round (i : Nat) (st : Nat × Nat × Nat × Nat × Nat) (w : Nat) : Nat × Nat × Nat × Nat × Nat :=
  let a := st.1; let b := st.2.1; let c := st.2.2.1; let d := st.2.2.2.1; let e := st.2.2.2.2
  let f := if i < 20 then (b &&& c) ||| ((b ^^^ 4294967295) &&& d)
           else if i < 40 then b ^^^ c ^^^ d
           else if i < 60 then (b &&& c) ||| (b &&& d) ||| (c &&& d)
           else b ^^^ c ^^^ d
  let k := if i < 20 then 1518500249 else if i < 40 then 1859775393
           else if i < 60 then 2400959708 else 3395469782
  (w32 (rotl 5 a + f + e + k + w), a, rotl 30 b, c, d)

/-- SHA-1 compression of one block, given as the 16 words in reversed order. -/
def sha1Compress (h : Nat × Nat × Nat × Nat × Nat) (block16rev : List Nat) : Nat × Nat × Nat × Nat × Nat :=
  let ws := (scheduleRev block16rev 64).reverse
  let r := ((List.range 80).zip ws).foldl (fun st iw => sha1Round iw.1 st iw.2) h
  (w32 (h.1 + r.1), w32 (h.2.1 + r.2.1), w32 (h.2.2.1 + r.2.2.1),
   w32 (h.2.2.2.1 + r.2.2.2.1), w32 (h.2.2.2.2 + r.2.2.2.2))

/-- Fold SHA-1 compression over the padded word stream, 16 words at a time. -/
def sha1Blocks (h : Nat × Nat × Nat × Nat × Nat) : List Nat → Nat × Nat × Nat × Nat × Nat
  | w0 :: w1 :: w2 :: w3 :: w4 :: w5 :: w6 :: w7 :: w8 :: w9 :: w10 :: w11 :: w12 :: w13 :: w14 :: w15 :: rest =>
      sha1Blocks (sha1Compress h [w15, w14, w13, w12, w11, w10, w9, w8, w7, w6, w5, w4, w3, w2, w1, w0]) rest
  | _ => h

/-- Big-endian bytes of a 32-bit word. -/
def wordBytes (w : Nat) : List Nat := [(w >>> 24) % 256, (w >>> 16) % 256, (w >>> 8) % 256, w % 256]

/-- SHA-1 digest (20 bytes) of a byte list. -/
def sha1 (msg : List Nat) : List Nat :=
  let h := sha1Blocks (1732584193, 4023233417, 2562383102, 271733878, 3285377520) (beWords (sha1Pad msg))
  wordBytes h.1 ++ wordBytes h.2.1 ++ wordBytes h.2.2.1 ++ wordBytes h.2.2.2.1 ++ wordBytes h.2.2.2.2

/-- HMAC-SHA1 (the hmac.digest call in the source, with hashlib.sha1). -/
def hmacSha1 (key msg : List Nat) : List Nat :=
  let k0 := if 64 < key.length then sha1 key else key
  let kp := k0 ++ List.replicate (64 - k0.length) 0
  sha1 ((kp.map (fun b => b ^^^ 92)) ++ sha1 ((kp.map (fun b => b ^^^ 54)) ++ msg))

/-- Base64 alphabet character for a 6-bit value. -/
def b64Char (n : Nat) : Nat :=
  if n < 26 then 65 + n else if n < 52 then 71 + n
  else if n < 62 then n - 4 else if n = 62 then 43 else 47

/-- Standard base64 encoding of a byte list (the b64encode call in the source). -/
def b64encode : List Nat → List Nat
  | [] => []
  | [a] => [b64Char (a >>> 2), b64Char ((a &&& 3) <<< 4), 61, 61]
  | [a, b] => [b64Char (a >>> 2), b64Char (((a &&& 3) <<< 4) ||| (b >>> 4)), b64Char ((b &&& 15) <<< 2), 61]
  | a :: b :: c :: rest =>
      b64Char (a >>> 2) :: b64Char (((a &&& 3) <<< 4) ||| (b >>> 4)) ::
      b64Char (((b &&& 15) <<< 2) ||| (c >>> 6)) :: b64Char (c &&& 63) :: b64encode rest

/-- Bytes urllib percent-encoding never encodes: letters, digits, underscore, dot, dash, tilde. -/
def isUrlSafeByte (b : Nat) : Bool :=
  decide ((65 ≤ b ∧ b ≤ 90) ∨ (97 ≤ b ∧ b ≤ 122) ∨ (48 ≤ b ∧ b ≤ 57) ∨ b = 95 ∨ b = 46 ∨ b = 45 ∨ b = 126)

/-- Uppercase hexadecimal digit byte for a value below 16. -/
def hexDigitUpper (n : Nat) : Nat := if n < 10 then 48 + n else 55 + n

/-- Percent-encoding of one byte: percent sign followed by two uppercase hex digits. -/
def pctEncodeByte (b : Nat) : List Nat := [37, hexDigitUpper (b / 16), hexDigitUpper (b % 16)]

/-- urllib quote over UTF-8 bytes, with an extra list of safe bytes (the safe argument). -/
def pyQuote (safe : List Nat) (s : List Nat) : List Nat :=
  s.flatMap fun b => if isUrlSafeByte b || safe.contains b then [b] else pctEncodeByte b

/-- urllib quote_plus: no safe bytes, and the space byte becomes a plus sign. -/
def pyQuotePlus (s : List Nat) : List Nat :=
  s.flatMap fun b => if isUrlSafeByte b then [b] else if b == 32 then [43] else pctEncodeByte b

/-- str.replace with a single-character pattern, over bytes. -/
def pyReplaceByte (old : Nat) (new : List Nat) (s : List Nat) : List Nat :=
  s.flatMap fun b => if b == old then new else [b]

/-- Worker for str.replace with a multi-byte pattern: scans left to right, replacing
non-overlapping occurrences.  The fuel argument starts at the length of the list,
which bounds the number of steps, so the recursion is structural. -/
def pyReplaceSubFuel (p : Nat) (ps rep : List Nat) : Nat → List Nat → List Nat
  | _, [] => []
  | 0, l => l
  | fuel + 1, b :: rest =>
      if b == p && rest.take ps.length == ps then rep ++ pyReplaceSubFuel p ps rep fuel (rest.drop ps.length)
      else b :: pyReplaceSubFuel p ps rep fuel rest

/-- str.replace over bytes.  The source never calls it with an empty pattern. -/
def pyReplaceSub (pat rep s : List Nat) : List Nat :=
  match pat with
  | [] => s
  | p :: ps => pyReplaceSubFuel p ps rep s.length s

/-- Worker for the dict view of a query multidict: keep the first occurrence of
every key, as request.args.to_dict does. -/
def toDictGo (seen : List String) : List (String × String) → List (String × String)
  | [] => []
  | p :: rest => if seen.contains p.1 then toDictGo seen rest else p :: toDictGo (p.1 :: seen) rest

/-- request.args.to_dict: first value wins for each key, insertion order kept. -/
def toDict (l : List (String × String)) : List (String × String) := toDictGo [] l

/-- request.args.get: the first value for the key, if any. -/
def argGet (args : List (String × String)) (k : String) : Option String :=
  (args.find? (fun p => p.1 == k)).map (fun p => p.2)

/-- Code-point comparison of character lists (how Python compares str values). -/
def charListLt : List Char → List Char → Bool
  | [], [] => false
  | [], _ :: _ => true
  | _ :: _, [] => false
  | a :: as, b :: bs =>
      if a.toNat < b.toNat then true else if b.toNat < a.toNat then false else charListLt as bs

/-- Lexicographic comparison of byte lists. -/
def listLtNat : List Nat → List Nat → Bool
  | [], [] => false
  | [], _ :: _ => true
  | _ :: _, [] => false
  | a :: as, b :: bs => if a < b then true else if b < a then false else listLtNat as bs

/-- Python tuple comparison for (key, encoded value) pairs: key first, value on ties. -/
def pairLt (p q : String × List Nat) : Bool :=
  charListLt p.1.data q.1.data || (p.1 == q.1 && listLtNat p.2 q.2)

/-- Stable sorted-insert for Python sorted: an element goes after every element
not greater than it. -/
def insertPair (x : String × List Nat) : List (String × List Nat) → List (String × List Nat)
  | [] => [x]
  | y :: ys => if pairLt x y then x :: y :: ys else y :: insertPair x ys

/-- Python sorted over (key, encoded value) pairs. -/
def sortPairs : List (String × List Nat) → List (String × List Nat)
  | [] => []
  | x :: xs => insertPair x (sortPairs xs)

/-- str.join with a separator, over byte lists. -/
def joinParts (sep : List Nat) : List (List Nat) → List Nat
  | [] => []
  | [x] => x
  | x :: y :: rest => x ++ sep ++ joinParts sep (y :: rest)

/-- The encoding applied to each query parameter value: urllib quote (slash safe),
then plus replaced by %20, then slash replaced by %2F. -/
def encodeParamValue (v : String) : List Nat :=
  pyReplaceByte 47 (strBytes "%2F") (pyReplaceByte 43 (strBytes "%20") (pyQuote [47] (strBytes v)))

/-- The third signature chunk before the outer quote: the dict view of the query
parameters without oauth_signature, each value encoded, joined as k=v, sorted,
and joined with ampersands. -/
def sortedQueryBytes (args : List (String × String)) : List Nat :=
  let qp := ((toDict args).filter (fun p => p.1 != "oauth_signature")).map
      (fun p => (p.1, encodeParamValue p.2))
  joinParts [38] ((sortPairs qp).map (fun p => strBytes p.1 ++ [61] ++ p.2))

/-- The canonical signature message: METHOD, ampersand, quote_plus of the base URL
(http scheme rewritten to https), ampersand, outer quote of the sorted query string. -/
def sigMessage (method base_url : String) (args : List (String × String)) : List Nat :=
  strBytes method ++ [38] ++
    pyQuotePlus (pyReplaceSub (strBytes "http://") (strBytes "https://") (strBytes base_url)) ++ [38] ++
    pyQuote [47] (sortedQueryBytes args)

/-- generate_signature from app/decorators.py: base64 of the HMAC-SHA1 of the
canonical message under the key client_secret plus an ampersand. -/
def generate_signature (method base_url : String) (args : List (String × String))
    (client_secret : String) : List Nat :=
  b64encode (hmacSha1 (strBytes client_secret ++ [38]) (sigMessage method base_url args))

/-- The two configuration values the validator reads: CLOUD_APP_CLIENT_ID and
CLOUD_APP_CLIENT_SECRET. -/
structure Config where
  client_id : String
  client_secret : String
deriving DecidableEq

/-- Whitespace stripped by the int constructor. -/
def isPyWs (c : Char) : Bool :=
  c == ' ' || c == '\t' || c == '\n' || c == '\r' || c.toNat == 11 || c.toNat == 12

/-- Strip leading and trailing whitespace from a character list. -/
def stripWs (l : List Char) : List Char :=
  ((l.dropWhile isPyWs).reverse.dropWhile isPyWs).reverse

/-- Decimal digit value of a character, if it is one. -/
def digitVal (c : Char) : Option Nat :=
  if 48 ≤ c.toNat && c.toNat ≤ 57 then some (c.toNat - 48) else none

/-- Accumulate decimal digits; fails on a non-digit. -/
def digitsToNatGo (acc : Nat) : List Char → Option Nat
  | [] => some acc
  | c :: rest =>
      match digitVal c with
      | none => none
      | some d => digitsToNatGo (acc * 10 + d) rest

/-- A non-empty all-digit character list as a Nat. -/
def digitsToNat : List Char → Option Nat
  | [] => none
  | cs => digitsToNatGo 0 cs

/-- The decimal strings the int constructor accepts: optional sign, digits,
surrounding whitespace allowed. -/
def pyParseInt (s : String) : Option Int :=
  match stripWs s.data with
  | '-' :: rest => (digitsToNat rest).map (fun n => -(n : Int))
  | '+' :: rest => (digitsToNat rest).map (fun n => (n : Int))
  | cs => (digitsToNat cs).map (fun n => (n : Int))

/-- int(x) on an optional string: raises TypeError on None and ValueError on a
non-numeric string, written as the exception name in the error constructor. -/
def pyInt : Option String → Except String Int
  | none => .error "TypeError"
  | some s =>
      match pyParseInt s with
      | some v => .ok v
      | none => .error "ValueError"

/-- Decidable equality for Except values, used to evaluate embedded fallible
code on concrete inputs. -/
def exceptDecEq [DecidableEq e] [DecidableEq a] : DecidableEq (Except e a)
  | .ok x, .ok y => if h : x = y then isTrue (by rw [h]) else isFalse (by simp [h])
  | .ok _, .error _ => isFalse (by simp)
  | .error _, .ok _ => isFalse (by simp)
  | .error x, .error y => if h : x = y then isTrue (by rw [h]) else isFalse (by simp [h])

instance [DecidableEq e] [DecidableEq a] : DecidableEq (Except e a) := exceptDecEq

/-- One replay-cache document as written by save_to_cache: the data payload
holds the raw oauth_nonce and oauth_timestamp argument values (either may be
absent, stored as null), with an absolute expiry instant. -/
structure CacheEntry where
  oauth_nonce : Option String
  oauth_timestamp : Option String
  expires_at : Int
deriving DecidableEq

/-- find_one_from_cache on the nonce/timestamp pair.  Reads filter out expired
entries: the TTL guarantee required of the document store. -/
def find_one_from_cache (cache : List CacheEntry) (nonce ts : Option String) (now : Int) :
    Option CacheEntry :=
  cache.find? (fun e => e.oauth_nonce == nonce && e.oauth_timestamp == ts && decide (now < e.expires_at))

/-- save_to_cache: insert a document whose expiry is now plus expires_in seconds. -/
def save_to_cache (cache : List CacheEntry) (nonce ts : Option String) (expires_in now : Int) :
    List CacheEntry :=
  cache ++ [⟨nonce, ts, now + expires_in⟩]

/-- The signature check from app/decorators.py (the function whose name starts
with an underscore there).  Checks, in order: consumer key against the
configured client id, timestamp staleness (int conversion of the raw value can
raise), a replay-cache hit on the nonce/timestamp pair, and finally a byte
comparison of the raw oauth_signature against the recomputed signature (absent
oauth_signature raises when its encode attribute is taken). -/
def oauth_is_signature_valid (cfg : Config) (method base_url : String)
    (args : List (String × String)) (now : Int) (cache : List CacheEntry) :
    Except String Bool :=
  let oauth_consumer_key := argGet args "oauth_consumer_key"
  let oauth_nonce := argGet args "oauth_nonce"
  let oauth_timestamp := argGet args "oauth_timestamp"
  let oauth_signature := argGet args "oauth_signature"
  if oauth_consumer_key ≠ some cfg.client_id then .ok false
  else
    match pyInt oauth_timestamp with
    | .error e => .error e
    | .ok ts =>
      if now - 300 > ts then .ok false
      else if (find_one_from_cache cache oauth_nonce oauth_timestamp now).isSome then .ok false
      else
        match oauth_signature with
        | none => .error "AttributeError"
        | some sig => .ok (strBytes sig == generate_signature method base_url args cfg.client_secret)

/-- Outcome of the validate_oauth_signature decorator around a handler:
skipped (method filter bypassed validation and the handler ran), accepted
(validation passed, nonce/timestamp saved to the replay cache, handler ran),
abort401, or an uncaught Python exception. -/
inductive GateResult where
  | skipped (cache : List CacheEntry)
  | accepted (cache : List CacheEntry)
  | abort401 (cache : List CacheEntry)
  | pyError (e : String) (cache : List CacheEntry)
deriving DecidableEq

/-- The body of the validate_oauth_signature wrapper once the method filter has
passed: run the signature check; on success save the raw nonce and timestamp to
the replay cache with the default 300-second TTL, otherwise abort with 401.
Modelled at create_new_session equal to false; the true case only adds a
session-store write after acceptance and does not touch the replay cache. -/
def oauthGateRun (cfg : Config) (method base_url : String) (args : List (String × String))
    (now : Int) (cache : List CacheEntry) : GateResult :=
  match oauth_is_signature_valid cfg method base_url args now cache with
  | .error e => .pyError e cache
  | .ok true =>
      .accepted (save_to_cache cache (argGet args "oauth_nonce") (argGet args "oauth_timestamp") 300 now)
  | .ok false => .abort401 cache

/-- validate_oauth_signature from app/decorators.py: requests whose method is
filtered out run the handler without validation; otherwise the gate runs. -/
def validate_oauth_signature (cfg : Config) (methods : Option (List String))
    (method base_url : String) (args : List (String × String)) (now : Int)
    (cache : List CacheEntry) : GateResult :=
  match methods with
  | some ms => if ms.contains method then oauthGateRun cfg method base_url args now cache else .skipped cache
  | none => oauthGateRun cfg method base_url args now cache

/-- bson ObjectId validity for a string: exactly 24 hexadecimal characters.
The ObjectId constructor raises InvalidId on anything else. -/
def isHexChar (c : Char) : Bool :=
  decide (('0' ≤ c ∧ c ≤ '9') ∨ ('a' ≤ c ∧ c ≤ 'f') ∨ ('A' ≤ c ∧ c ≤ 'F'))

/-- Whether the ObjectId constructor accepts the string. -/
def isValidObjectId (s : String) : Bool :=
  s.data.length == 24 && s.data.all isHexChar

/-- One session document: id (the string form of its ObjectId), the stored
_expires_in duration, the absolute _expires_at instant, the data payload, and
the optional is_authed flag (set_session only writes it when given). -/
structure SessionRec where
  id : String
  expires_in : Int
  expires_at : Int
  data : List (String × String)
  is_authed : Option Bool
deriving DecidableEq

/-- Replace the first list element satisfying the predicate (update_one). -/
def updateFirst (p : α → Bool) (f : α → α) : List α → List α
  | [] => []
  | x :: xs => if p x then f x :: xs else x :: updateFirst p f xs

/-- Remove the first list element satisfying the predicate (delete_one). -/
def removeFirst (p : α → Bool) : List α → List α
  | [] => []
  | x :: xs => if p x then xs else x :: removeFirst p xs

/-- find_one on the sessions collection by id.  Reads filter out expired
records: the TTL guarantee required of the document store. -/
def readableSession (store : List SessionRec) (sid : String) (now : Int) : Option SessionRec :=
  store.find? (fun r => r.id == sid && decide (now < r.expires_at))

/-- Database.get_session with refresh_session true (both call sites use the
default): raises InvalidId on a malformed id; otherwise finds the document and,
when found, re-stamps the stored expiry to now plus the stored _expires_in.
The function returns the document obtained by find_one, that is the document
as it was BEFORE the re-stamp, together with the updated store. -/
def db_get_session (store : List SessionRec) (sid : String) (now : Int) :
    Except String (Option SessionRec × List SessionRec) :=
  if isValidObjectId sid then
    match readableSession store sid now with
    | none => .ok (none, store)
    | some r =>
        .ok (some r,
          updateFirst (fun q => q.id == sid && decide (now < q.expires_at))
            (fun q => { q with expires_at := now + r.expires_in }) store)
  else .error "InvalidId"

/-- Database.set_session with a session id (the update branch):
find_one_and_update by id, setting _expires_in, _expires_at and data, and
returning the document after the update; is_authed is not touched because the
caller passes no is_authed.  A missing (or, per the TTL guarantee, expired)
document yields none. -/
def db_set_session_update (store : List SessionRec) (data : List (String × String))
    (sid : String) (expires_in now : Int) :
    Except String (Option SessionRec × List SessionRec) :=
  if isValidObjectId sid then
    match readableSession store sid now with
    | none => .ok (none, store)
    | some r =>
        let r2 := { r with expires_in := expires_in, expires_at := now + expires_in, data := data }
        .ok (some r2,
          updateFirst (fun q => q.id == sid && decide (now < q.expires_at)) (fun _ => r2) store)
  else .error "InvalidId"

/-- Database.set_session without a session id (the insert branch): insert_one
of a fresh document followed by find_one of the inserted id.  The fresh
ObjectId generated by the driver is supplied as newId; it is assumed fresh, so
the find_one returns the inserted document. -/
def db_set_session_insert (store : List SessionRec) (data : List (String × String))
    (expires_in : Int) (is_authed : Option Bool) (newId : String) (now : Int) :
    SessionRec × List SessionRec :=
  let r : SessionRec := ⟨newId, expires_in, now + expires_in, data, is_authed⟩
  (r, store ++ [r])

/-- Database.delete_session: delete_one by id; raises InvalidId on a malformed id. -/
def db_delete_session (store : List SessionRec) (sid : String) : Except String (List SessionRec) :=
  if isValidObjectId sid then .ok (removeFirst (fun r => r.id == sid) store)
  else .error "InvalidId"

/-- The caller side channel (the flask cookie session): the bound session id
and the locally cached expiry timestamp. -/
structure Flask where
  session_id : Option String
  expires_at : Option Int
deriving DecidableEq

/-- Python truthiness of the optional session id (empty string is falsy). -/
def truthyStr : Option String → Bool
  | none => false
  | some s => s != ""

/-- Python truthiness of the optional cached expiry (zero is falsy). -/
def truthyInt : Option Int → Bool
  | none => false
  | some n => n != 0

/-- The in-memory Session object on success: its id, the expiry it caches
(taken from the document returned by get_session), the is_authed flag, and the
dict payload. -/
structure SessionObj where
  id : String
  expires_at : Int
  is_authed : Bool
  data : List (String × String)
deriving DecidableEq

/-- Outcome of Session construction: success carries the object, the rebound
side channel and the store; SessionExpired and SessionNotFound carry the
cleared side channel and the store; pyError is an uncaught exception. -/
inductive SessionResult where
  | ok (obj : SessionObj) (flask : Flask) (store : List SessionRec)
  | sessionExpired (flask : Flask) (store : List SessionRec)
  | sessionNotFound (flask : Flask) (store : List SessionRec)
  | pyError (e : String) (store : List SessionRec)
deriving DecidableEq

/-- The tail of Session construction once a document is in hand: reading the
is_authed key raises KeyError when absent; otherwise the object is built from
the document (note: its _expires_at as returned by get_session, which is the
pre-refresh value) and the side channel is rebound to the id and that expiry. -/
def sessionFinish (r : SessionRec) (store : List SessionRec) : SessionResult :=
  match r.is_authed with
  | none => .pyError "KeyError" store
  | some authed =>
      .ok ⟨r.id, r.expires_at, authed, r.data⟩ ⟨some r.id, some r.expires_at⟩ store

/-- The validation branch of Session construction when create_new is false:
the session counts as expired when an id is bound but no document came back,
or when the truthy cached expiry has passed; with no bound id and no expired
cached expiry the session is not found. -/
def sessionResolveCore (flask : Flask) (sfd : Option SessionRec) (store : List SessionRec)
    (now : Int) : SessionResult :=
  if (truthyStr flask.session_id && sfd.isNone)
      || (truthyInt flask.expires_at && decide (flask.expires_at.getD 0 ≤ now)) then
    .sessionExpired ⟨none, none⟩ store
  else
    match sfd with
    | none => .sessionNotFound ⟨none, none⟩ store
    | some r => sessionFinish r store

/-- Session construction with create_new false (session.get_session): a truthy
bound id is looked up first (with the refresh side effect on the store), then
the expiry and existence checks run. -/
def sessionResolve (flask : Flask) (store : List SessionRec) (now : Int) : SessionResult :=
  match flask.session_id with
  | some sid =>
      if truthyStr flask.session_id then
        match db_get_session store sid now with
        | .error e => .pyError e store
        | .ok (sfd, store1) => sessionResolveCore flask sfd store1 now
      else sessionResolveCore flask none store now
  | none => sessionResolveCore flask none store now

/-- Session construction with create_new true (session.create_session): a
truthy bound id is looked up (with the refresh side effect); an existing
document is deleted; then a fresh document is inserted with the default
3600-second duration and the given is_authed flag, skipping the expiry and
existence checks. -/
def sessionCreate (flask : Flask) (store : List SessionRec)
    (initial_data : List (String × String)) (is_authed : Bool) (newId : String) (now : Int) :
    SessionResult :=
  match flask.session_id with
  | some sid =>
      if truthyStr flask.session_id then
        match db_get_session store sid now with
        | .error e => .pyError e store
        | .ok (some _, store1) =>
            match db_delete_session store1 sid with
            | .error e => .pyError e store1
            | .ok store2 =>
                let rs := db_set_session_insert store2 initial_data 3600 (some is_authed) newId now
                sessionFinish rs.1 rs.2
        | .ok (none, store1) =>
            let rs := db_set_session_insert store1 initial_data 3600 (some is_authed) newId now
            sessionFinish rs.1 rs.2
      else
        let rs := db_set_session_insert store initial_data 3600 (some is_authed) newId now
        sessionFinish rs.1 rs.2
  | none =>
      let rs := db_set_session_insert store initial_data 3600 (some is_authed) newId now
      sessionFinish rs.1 rs.2

/-- Python dict assignment d[k] = v on the association-list view: replace in
place when the key exists, append otherwise. -/
def dictSet (d : List (String × String)) (k v : String) : List (String × String) :=
  if (d.find? (fun p => p.1 == k)).isSome then d.map (fun p => if p.1 == k then (k, v) else p)
  else d ++ [(k, v)]

/-- Outcome of a Session key assignment. -/
inductive SetItemResult where
  | ok (obj : SessionObj) (store : List SessionRec)
  | sessionExpired (store : List SessionRec)
  | pyError (e : String) (store : List SessionRec)
deriving DecidableEq

/-- Session setitem from app/session.py: update the dict, then persist the
whole document through set_session (update branch, default 3600-second
duration, is_authed untouched); a vanished document raises SessionExpired. -/
def sessionSetItem (obj : SessionObj) (store : List SessionRec) (k v : String) (now : Int) :
    SetItemResult :=
  let newData := dictSet obj.data k v
  match db_set_session_update store newData obj.id 3600 now with
  | .error e => .pyError e store
  | .ok (none, store1) => .sessionExpired store1
  | .ok (some _, store1) => .ok { obj with data := newData } store1

/-- One installation document, restricted to the fields this subsystem reads
and writes: the identifying (app_id, install_id) pair, the base_url set by the
OAuth callback, and the nested oauth.token value. -/
structure Installation where
  app_id : String
  install_id : String
  base_url : Option String
  token : Option String
deriving DecidableEq

/-- The filter both get_installation and the update methods use. -/
def instMatch (app_id install_id : String) (i : Installation) : Bool :=
  i.app_id == app_id && i.install_id == install_id

/-- Database.get_token: read the installation and take its oauth.token, absent
when the installation or the token is absent. -/
def db_get_token (insts : List Installation) (app_id install_id : String) : Option String :=
  match insts.find? (instMatch app_id install_id) with
  | none => none
  | some i => i.token

/-- Database.set_token: update_one without upsert, setting oauth.token on the
matching installation; a missing installation makes it a silent no-op. -/
def db_set_token (insts : List Installation) (app_id install_id : String) (t : String) :
    List Installation :=
  updateFirst (instMatch app_id install_id) (fun i => { i with token := some t }) insts

/-- Database.update_installation as called by the OAuth callback, whose data
dict is exactly the base_url field and whose config is None: update_one without
upsert; when nothing matches it logs a warning and returns false. -/
def db_update_installation_base_url (insts : List Installation)
    (app_id install_id base_url : String) : Bool × List Installation :=
  if (insts.find? (instMatch app_id install_id)).isSome then
    (true, updateFirst (instMatch app_id install_id)
      (fun i => { i with base_url := some base_url }) insts)
  else (false, insts)

/-- TokenManager from app/auth.py: the (app_id, install_id) pair it is bound to
and its per-instance token cache. -/
structure TokenManager where
  app_id : String
  install_id : String
  token : Option String
deriving DecidableEq

/-- TokenManager construction without an initial token. -/
def tokenManagerInit (app_id install_id : String) : TokenManager := ⟨app_id, install_id, none⟩

/-- TokenManager call or set: persist the token through set_token and cache it. -/
def tokenManagerSet (tm : TokenManager) (insts : List Installation) (t : String) :
    TokenManager × List Installation :=
  ({ tm with token := some t }, db_set_token insts tm.app_id tm.install_id t)

/-- TokenManager.get: lazily load from the installation record when nothing is
cached yet. -/
def tokenManagerGet (tm : TokenManager) (insts : List Installation) : Option String × TokenManager :=
  match tm.token with
  | none =>
      let t := db_get_token insts tm.app_id tm.install_id
      (t, { tm with token := t })
  | some t => (some t, tm)

/-- Split a character list at every dot (Python str.split with a dot). -/
def pySplitDotGo (cur : List Char) : List Char → List (List Char)
  | [] => [cur.reverse]
  | c :: rest => if c == '.' then cur.reverse :: pySplitDotGo [] rest else pySplitDotGo (c :: cur) rest

/-- Python str.split on a dot. -/
def pySplitDot (s : String) : List String :=
  (pySplitDotGo [] s.data).map (fun l => ⟨l⟩)

/-- OAuth2State.from_str: split on dots and take the first two parts as
session id and token; a string without a dot raises IndexError. -/
def oauth2StateFromStr (v : String) : Except String (String × String) :=
  match pySplitDot v with
  | s0 :: s1 :: _ => .ok (s0, s1)
  | _ => .error "IndexError"

/-- The two external HTTP collaborators of the callback, modelled as inputs:
the token the token endpoint returns and the base url in the identity
endpoint response. -/
structure CallbackEnv where
  fetched_token : String
  identity_base_url : String
deriving DecidableEq

/-- The document-store state the callback touches. -/
structure CallbackDb where
  sessions : List SessionRec
  installations : List Installation
deriving DecidableEq

/-- Outcome of the OAuth callback dispatch: the user-visible session-expired
response (HTTP 400), the final redirect, or an uncaught Python exception. -/
inductive CallbackResult where
  | sessionExpired400 (db : CallbackDb)
  | redirectTo (url : String) (db : CallbackDb)
  | pyError (e : String) (db : CallbackDb)
deriving DecidableEq

/-- BaseOAuthCallbackView.dispatch_request from app/blueprints/oauth.py:
parse the state, look up the session (refresh side effect included), answer
the session-expired response when it is absent, read redirect_url and
install_id out of the session data (KeyError when missing), fetch the token
(external, supplied by env), persist it through TokenManager, fetch the
identity resource (external) and update the installation base_url ignoring
the returned flag, then redirect. -/
def dispatch_request (cfg : Config) (stateParam : Option String) (env : CallbackEnv)
    (db : CallbackDb) (now : Int) : CallbackResult :=
  match stateParam with
  | none => .pyError "BadRequestKeyError" db
  | some st =>
    match oauth2StateFromStr st with
    | .error e => .pyError e db
    | .ok (session_id, _tok) =>
      match db_get_session db.sessions session_id now with
      | .error e => .pyError e db
      | .ok (none, sessions1) => .sessionExpired400 { db with sessions := sessions1 }
      | .ok (some sess, sessions1) =>
        match argGet sess.data "redirect_url", argGet sess.data "install_id" with
        | none, _ => .pyError "KeyError" { db with sessions := sessions1 }
        | some _, none => .pyError "KeyError" { db with sessions := sessions1 }
        | some redirect_url, some install_id =>
          let si := tokenManagerSet (tokenManagerInit cfg.client_id install_id)
              db.installations env.fetched_token
          let ui := db_update_installation_base_url si.2 cfg.client_id install_id
              env.identity_base_url
          .redirectTo redirect_url ⟨sessions1, ui.2⟩

/-- The configuration of the worked scenario: client id and the secret shh. -/
def demoCfg : Config := ⟨"client", "shh"⟩

/-- The base URL of the worked scenario. -/
def demoUrl : String := "https://test.example/endpoint"

/-- The query parameters of the worked scenario, including the oauth
parameters and the signature the validator itself computes over them. -/
def demoArgs : List (String × String) :=
  [("oauth_consumer_key", "client"), ("oauth_nonce", "nonce1"), ("oauth_timestamp", "1000"),
   ("foo", "bar"), ("x", "1"), ("oauth_signature", "7oZ5QoAOlBKv9+m/A8JOpFeG2oQ=")]

/-- The worked scenario with the foo value changed and the old signature kept. -/
def demoArgsFoo : List (String × String) :=
  [("oauth_consumer_key", "client"), ("oauth_nonce", "nonce1"), ("oauth_timestamp", "1000"),
   ("foo", "baz"), ("x", "1"), ("oauth_signature", "7oZ5QoAOlBKv9+m/A8JOpFeG2oQ=")]

/-- The worked scenario with the x value changed and the old signature kept. -/
def demoArgsX : List (String × String) :=
  [("oauth_consumer_key", "client"), ("oauth_nonce", "nonce1"), ("oauth_timestamp", "1000"),
   ("foo", "bar"), ("x", "2"), ("oauth_signature", "7oZ5QoAOlBKv9+m/A8JOpFeG2oQ=")]

/-- Replace the value carried by every oauth_signature entry, leaving every
other query parameter untouched: the shape of two requests identical except in
the signature value. -/
def setSigValue (args : List (String × String)) (v : String) : List (String × String) :=
  args.map (fun p => if p.1 = "oauth_signature" then (p.1, v) else p)

/-- Checkpoint literal for the worked scenario: canonical signature message bytes. -/
def d0Msg : List Nat := [71, 69, 84, 38, 104, 116, 116, 112, 115, 37, 51, 65, 37, 50, 70, 37, 50, 70, 116, 101, 115, 116, 46, 101, 120, 97, 109, 112, 108, 101, 37, 50, 70, 101, 110, 100, 112, 111, 105, 110, 116, 38, 102, 111, 111, 37, 51, 68, 98, 97, 114, 37, 50, 54, 111, 97, 117, 116, 104, 95, 99, 111, 110, 115, 117, 109, 101, 114, 95, 107, 101, 121, 37, 51, 68, 99, 108, 105, 101, 110, 116, 37, 50, 54, 111, 97, 117, 116, 104, 95, 110, 111, 110, 99, 101, 37, 51, 68, 110, 111, 110, 99, 101, 49, 37, 50, 54, 111, 97, 117, 116, 104, 95, 116, 105, 109, 101, 115, 116, 97, 109, 112, 37, 51, 68, 49, 48, 48, 48, 37, 50, 54, 120, 37, 51, 68, 49]

/-- Checkpoint literal for the worked scenario: HMAC key bytes (secret plus ampersand). -/
def d0Key : List Nat := [115, 104, 104, 38]

/-- Checkpoint literal for the worked scenario: inner HMAC input (padded xored key then message). -/
def d0Inner1 : List Nat := [69, 94, 94, 16, 54, 54, 54, 54, 54, 54, 54, 54, 54, 54, 54, 54, 54, 54, 54, 54, 54, 54, 54, 54, 54, 54, 54, 54, 54, 54, 54, 54, 54, 54, 54, 54, 54, 54, 54, 54, 54, 54, 54, 54, 54, 54, 54, 54, 54, 54, 54, 54, 54, 54, 54, 54, 54, 54, 54, 54, 54, 54, 54, 54, 71, 69, 84, 38, 104, 116, 116, 112, 115, 37, 51, 65, 37, 50, 70, 37, 50, 70, 116, 101, 115, 116, 46, 101, 120, 97, 109, 112, 108, 101, 37, 50, 70, 101, 110, 100, 112, 111, 105, 110, 116, 38, 102, 111, 111, 37, 51, 68, 98, 97, 114, 37, 50, 54, 111, 97, 117, 116, 104, 95, 99, 111, 110, 115, 117, 109, 101, 114, 95, 107, 101, 121, 37, 51, 68, 99, 108, 105, 101, 110, 116, 37, 50, 54, 111, 97, 117, 116, 104, 95, 110, 111, 110, 99, 101, 37, 51, 68, 110, 111, 110, 99, 101, 49, 37, 50, 54, 111, 97, 117, 116, 104, 95, 116, 105, 109, 101, 115, 116, 97, 109, 112, 37, 51, 68, 49, 48, 48, 48, 37, 50, 54, 120, 37, 51, 68, 49]

/-- Checkpoint literal for the worked scenario: inner SHA-1 digest. -/
def d0InnerDig : List Nat := [67, 157, 13, 143, 63, 91, 172, 24, 162, 23, 123, 75, 210, 90, 83, 35, 237, 236, 172, 155]

/-- Checkpoint literal for the worked scenario: outer HMAC input (padded xored key then inner digest). -/
def d0Outer1 : List Nat := [47, 52, 52, 122, 92, 92, 92, 92, 92, 92, 92, 92, 92, 92, 92, 92, 92, 92, 92, 92, 92, 92, 92, 92, 92, 92, 92, 92, 92, 92, 92, 92, 92, 92, 92, 92, 92, 92, 92, 92, 92, 92, 92, 92, 92, 92, 92, 92, 92, 92, 92, 92, 92, 92, 92, 92, 92, 92, 92, 92, 92, 92, 92, 92, 67, 157, 13, 143, 63, 91, 172, 24, 162, 23, 123, 75, 210, 90, 83, 35, 237, 236, 172, 155]

/-- Checkpoint literal for the worked scenario: outer SHA-1 digest. -/
def d0OuterDig : List Nat := [238, 134, 121, 66, 128, 14, 148, 18, 175, 247, 233, 191, 3, 194, 78, 164, 87, 134, 218, 132]

/-- Checkpoint literal for the worked scenario: base64 signature bytes. -/
def d0Sig : List Nat := [55, 111, 90, 53, 81, 111, 65, 79, 108, 66, 75, 118, 57, 43, 109, 47, 65, 56, 74, 79, 112, 70, 101, 71, 50, 111, 81, 61]

/-- Checkpoint literal for the scenario with foo changed: canonical signature message bytes. -/
def dfooMsg : List Nat := [71, 69, 84, 38, 104, 116, 116, 112, 115, 37, 51, 65, 37, 50, 70, 37, 50, 70, 116, 101, 115, 116, 46, 101, 120, 97, 109, 112, 108, 101, 37, 50, 70, 101, 110, 100, 112, 111, 105, 110, 116, 38, 102, 111, 111, 37, 51, 68, 98, 97, 122, 37, 50, 54, 111, 97, 117, 116, 104, 95, 99, 111, 110, 115, 117, 109, 101, 114, 95, 107, 101, 121, 37, 51, 68, 99, 108, 105, 101, 110, 116, 37, 50, 54, 111, 97, 117, 116, 104, 95, 110, 111, 110, 99, 101, 37, 51, 68, 110, 111, 110, 99, 101, 49, 37, 50, 54, 111, 97, 117, 116, 104, 95, 116, 105, 109, 101, 115, 116, 97, 109, 112, 37, 51, 68, 49, 48, 48, 48, 37, 50, 54, 120, 37, 51, 68, 49]

/-- Checkpoint literal for the scenario with foo changed: HMAC key bytes (secret plus ampersand). -/
def dfooKey : List Nat := [115, 104, 104, 38]

/-- Checkpoint literal for the scenario with foo changed: inner HMAC input (padded xored key then message). -/
def dfooInner1 : List Nat := [69, 94, 94, 16, 54, 54, 54, 54, 54, 54, 54, 54, 54, 54, 54, 54, 54, 54, 54, 54, 54, 54, 54, 54, 54, 54, 54, 54, 54, 54, 54, 54, 54, 54, 54, 54, 54, 54, 54, 54, 54, 54, 54, 54, 54, 54, 54, 54, 54, 54, 54, 54, 54, 54, 54, 54, 54, 54, 54, 54, 54, 54, 54, 54, 71, 69, 84, 38, 104, 116, 116, 112, 115, 37, 51, 65, 37, 50, 70, 37, 50, 70, 116, 101, 115, 116, 46, 101, 120, 97, 109, 112, 108, 101, 37, 50, 70, 101, 110, 100, 112, 111, 105, 110, 116, 38, 102, 111, 111, 37, 51, 68, 98, 97, 122, 37, 50, 54, 111, 97, 117, 116, 104, 95, 99, 111, 110, 115, 117, 109, 101, 114, 95, 107, 101, 121, 37, 51, 68, 99, 108, 105, 101, 110, 116, 37, 50, 54, 111, 97, 117, 116, 104, 95, 110, 111, 110, 99, 101, 37, 51, 68, 110, 111, 110, 99, 101, 49, 37, 50, 54, 111, 97, 117, 116, 104, 95, 116, 105, 109, 101, 115, 116, 97, 109, 112, 37, 51, 68, 49, 48, 48, 48, 37, 50, 54, 120, 37, 51, 68, 49]

/-- Checkpoint literal for the scenario with foo changed: inner SHA-1 digest. -/
def dfooInnerDig : List Nat := [210, 167, 42, 46, 42, 125, 75, 227, 157, 177, 45, 32, 81, 230, 150, 25, 184, 147, 0, 22]

/-- Checkpoint literal for the scenario with foo changed: outer HMAC input (padded xored key then inner digest). -/
def dfooOuter1 : List Nat := [47, 52, 52, 122, 92, 92, 92, 92, 92, 92, 92, 92, 92, 92, 92, 92, 92, 92, 92, 92, 92, 92, 92, 92, 92, 92, 92, 92, 92, 92, 92, 92, 92, 92, 92, 92, 92, 92, 92, 92, 92, 92, 92, 92, 92, 92, 92, 92, 92, 92, 92, 92, 92, 92, 92, 92, 92, 92, 92, 92, 92, 92, 92, 92, 210, 167, 42, 46, 42, 125, 75, 227, 157, 177, 45, 32, 81, 230, 150, 25, 184, 147, 0, 22]

/-- Checkpoint literal for the scenario with foo changed: outer SHA-1 digest. -/
def dfooOuterDig : List Nat := [14, 18, 67, 6, 60, 144, 166, 7, 210, 5, 180, 82, 186, 44, 252, 1, 230, 165, 248, 207]

/-- Checkpoint literal for the scenario with foo changed: base64 signature bytes. -/
def dfooSig : List Nat := [68, 104, 74, 68, 66, 106, 121, 81, 112, 103, 102, 83, 66, 98, 82, 83, 117, 105, 122, 56, 65, 101, 97, 108, 43, 77, 56, 61]

/-- Checkpoint literal for the scenario with x changed: canonical signature message bytes. -/
def dxMsg : List Nat := [71, 69, 84, 38, 104, 116, 116, 112, 115, 37, 51, 65, 37, 50, 70, 37, 50, 70, 116, 101, 115, 116, 46, 101, 120, 97, 109, 112, 108, 101, 37, 50, 70, 101, 110, 100, 112, 111, 105, 110, 116, 38, 102, 111, 111, 37, 51, 68, 98, 97, 114, 37, 50, 54, 111, 97, 117, 116, 104, 95, 99, 111, 110, 115, 117, 109, 101, 114, 95, 107, 101, 121, 37, 51, 68, 99, 108, 105, 101, 110, 116, 37, 50, 54, 111, 97, 117, 116, 104, 95, 110, 111, 110, 99, 101, 37, 51, 68, 110, 111, 110, 99, 101, 49, 37, 50, 54, 111, 97, 117, 116, 104, 95, 116, 105, 109, 101, 115, 116, 97, 109, 112, 37, 51, 68, 49, 48, 48, 48, 37, 50, 54, 120, 37, 51, 68, 50]

/-- Checkpoint literal for the scenario with x changed: HMAC key bytes (secret plus ampersand). -/
def dxKey : List Nat := [115, 104, 104, 38]

/-- Checkpoint literal for the scenario with x changed: inner HMAC input (padded xored key then message). -/
def dxInner1 : List Nat := [69, 94, 94, 16, 54, 54, 54, 54, 54, 54, 54, 54, 54, 54, 54, 54, 54, 54, 54, 54, 54, 54, 54, 54, 54, 54, 54, 54, 54, 54, 54, 54, 54, 54, 54, 54, 54, 54, 54, 54, 54, 54, 54, 54, 54, 54, 54, 54, 54, 54, 54, 54, 54, 54, 54, 54, 54, 54, 54, 54, 54, 54, 54, 54, 71, 69, 84, 38, 104, 116, 116, 112, 115, 37, 51, 65, 37, 50, 70, 37, 50, 70, 116, 101, 115, 116, 46, 101, 120, 97, 109, 112, 108, 101, 37, 50, 70, 101, 110, 100, 112, 111, 105, 110, 116, 38, 102, 111, 111, 37, 51, 68, 98, 97, 114, 37, 50, 54, 111, 97, 117, 116, 104, 95, 99, 111, 110, 115, 117, 109, 101, 114, 95, 107, 101, 121, 37, 51, 68, 99, 108, 105, 101, 110, 116, 37, 50, 54, 111, 97, 117, 116, 104, 95, 110, 111, 110, 99, 101, 37, 51, 68, 110, 111, 110, 99, 101, 49, 37, 50, 54, 111, 97, 117, 116, 104, 95, 116, 105, 109, 101, 115, 116, 97, 109, 112, 37, 51, 68, 49, 48, 48, 48, 37, 50, 54, 120, 37, 51, 68, 50]

/-- Checkpoint literal for the scenario with x changed: inner SHA-1 digest. -/
def dxInnerDig : List Nat := [120, 66, 60, 10, 202, 108, 240, 201, 62, 141, 112, 47, 234, 116, 16, 121, 58, 128, 247, 175]

/-- Checkpoint literal for the scenario with x changed: outer HMAC input (padded xored key then inner digest). -/
def dxOuter1 : List Nat := [47, 52, 52, 122, 92, 92, 92, 92, 92, 92, 92, 92, 92, 92, 92, 92, 92, 92, 92, 92, 92, 92, 92, 92, 92, 92, 92, 92, 92, 92, 92, 92, 92, 92, 92, 92, 92, 92, 92, 92, 92, 92, 92, 92, 92, 92, 92, 92, 92, 92, 92, 92, 92, 92, 92, 92, 92, 92, 92, 92, 92, 92, 92, 92, 120, 66, 60, 10, 202, 108, 240, 201, 62, 141, 112, 47, 234, 116, 16, 121, 58, 128, 247, 175]

/-- Checkpoint literal for the scenario with x changed: outer SHA-1 digest. -/
def dxOuterDig : List Nat := [193, 214, 102, 250, 58, 47, 159, 139, 57, 255, 113, 152, 30, 79, 101, 19, 244, 47, 217, 90]

/-- Checkpoint literal for the scenario with x changed: base64 signature bytes. -/
def dxSig : List Nat := [119, 100, 90, 109, 43, 106, 111, 118, 110, 52, 115, 53, 47, 51, 71, 89, 72, 107, 57, 108, 69, 47, 81, 118, 50, 86, 111, 61]

/-!
Theorems.  First, shared helper lemmas: an unfolding lemma for HMAC with a
short key, checkpoint evaluations of the three concrete signatures of the
worked scenario, and characterizations of the signature check and the gate.
-/

/-- HMAC with a key of at most 64 bytes uses the zero-padded key directly. -/
theorem hmacSha1_small (key msg : List Nat) (h : ¬ 64 < key.length) :
    hmacSha1 key msg =
      sha1 (((key ++ List.replicate (64 - key.length) 0).map (fun b => b ^^^ 92)) ++
        sha1 (((key ++ List.replicate (64 - key.length) 0).map (fun b => b ^^^ 54)) ++ msg)) := by
  simp only [hmacSha1, if_neg h]

set_option maxRecDepth 25000 in
/-- The canonical message of the worked scenario evaluates to its checkpoint. -/
theorem d0_msg_eq : sigMessage "GET" demoUrl demoArgs = d0Msg := by decide

set_option maxRecDepth 25000 in
/-- The inner HMAC input of the worked scenario evaluates to its checkpoint. -/
theorem d0_inner1_eq :
    ((d0Key ++ List.replicate (64 - d0Key.length) 0).map (fun b => b ^^^ 54)) ++ d0Msg = d0Inner1 := by
  decide

set_option maxRecDepth 25000 in
/-- The inner SHA-1 digest of the worked scenario. -/
theorem d0_inner_sha : sha1 d0Inner1 = d0InnerDig := by decide

set_option maxRecDepth 25000 in
/-- The outer HMAC input of the worked scenario evaluates to its checkpoint. -/
theorem d0_outer1_eq :
    ((d0Key ++ List.replicate (64 - d0Key.length) 0).map (fun b => b ^^^ 92)) ++ d0InnerDig = d0Outer1 := by
  decide

set_option maxRecDepth 25000 in
/-- The outer SHA-1 digest of the worked scenario. -/
theorem d0_outer_sha : sha1 d0Outer1 = d0OuterDig := by decide

set_option maxRecDepth 25000 in
/-- The signature the validator computes over the worked scenario. -/
theorem d0_sig_eq : generate_signature "GET" demoUrl demoArgs "shh" = d0Sig := by
  have hkey : strBytes "shh" ++ [38] = d0Key := by decide
  rw [generate_signature, d0_msg_eq, hkey, hmacSha1_small d0Key d0Msg (by decide),
      d0_inner1_eq, d0_inner_sha, d0_outer1_eq, d0_outer_sha]
  decide

set_option maxRecDepth 25000 in
/-- Canonical message checkpoint for the scenario with foo changed. -/
theorem dfoo_msg_eq : sigMessage "GET" demoUrl demoArgsFoo = dfooMsg := by decide

set_option maxRecDepth 25000 in
/-- Inner HMAC input checkpoint for the scenario with foo changed. -/
theorem dfoo_inner1_eq :
    ((dfooKey ++ List.replicate (64 - dfooKey.length) 0).map (fun b => b ^^^ 54)) ++ dfooMsg = dfooInner1 := by
  decide

set_option maxRecDepth 25000 in
/-- Inner SHA-1 digest for the scenario with foo changed. -/
theorem dfoo_inner_sha : sha1 dfooInner1 = dfooInnerDig := by decide

set_option maxRecDepth 25000 in
/-- Outer HMAC input checkpoint for the scenario with foo changed. -/
theorem dfoo_outer1_eq :
    ((dfooKey ++ List.replicate (64 - dfooKey.length) 0).map (fun b => b ^^^ 92)) ++ dfooInnerDig = dfooOuter1 := by
  decide

set_option maxRecDepth 25000 in
/-- Outer SHA-1 digest for the scenario with foo changed. -/
theorem dfoo_outer_sha : sha1 dfooOuter1 = dfooOuterDig := by decide

set_option maxRecDepth 25000 in
/-- The signature the validator computes once foo has changed. -/
theorem dfoo_sig_eq : generate_signature "GET" demoUrl demoArgsFoo "shh" = dfooSig := by
  have hkey : strBytes "shh" ++ [38] = dfooKey := by decide
  rw [generate_signature, dfoo_msg_eq, hkey, hmacSha1_small dfooKey dfooMsg (by decide),
      dfoo_inner1_eq, dfoo_inner_sha, dfoo_outer1_eq, dfoo_outer_sha]
  decide

set_option maxRecDepth 25000 in
/-- Canonical message checkpoint for the scenario with x changed. -/
theorem dx_msg_eq : sigMessage "GET" demoUrl demoArgsX = dxMsg := by decide

set_option maxRecDepth 25000 in
/-- Inner HMAC input checkpoint for the scenario with x changed. -/
theorem dx_inner1_eq :
    ((dxKey ++ List.replicate (64 - dxKey.length) 0).map (fun b => b ^^^ 54)) ++ dxMsg = dxInner1 := by
  decide

set_option maxRecDepth 25000 in
/-- Inner SHA-1 digest for the scenario with x changed. -/
theorem dx_inner_sha : sha1 dxInner1 = dxInnerDig := by decide

set_option maxRecDepth 25000 in
/-- Outer HMAC input checkpoint for the scenario with x changed. -/
theorem dx_outer1_eq :
    ((dxKey ++ List.replicate (64 - dxKey.length) 0).map (fun b => b ^^^ 92)) ++ dxInnerDig = dxOuter1 := by
  decide

set_option maxRecDepth 25000 in
/-- Outer SHA-1 digest for the scenario with x changed. -/
theorem dx_outer_sha : sha1 dxOuter1 = dxOuterDig := by decide

set_option maxRecDepth 25000 in
/-- The signature the validator computes once x has changed. -/
theorem dx_sig_eq : generate_signature "GET" demoUrl demoArgsX "shh" = dxSig := by
  have hkey : strBytes "shh" ++ [38] = dxKey := by decide
  rw [generate_signature, dx_msg_eq, hkey, hmacSha1_small dxKey dxMsg (by decide),
      dx_inner1_eq, dx_inner_sha, dx_outer1_eq, dx_outer_sha]
  decide

/-- The signature check reduces to the byte comparison once the consumer key
matches, the timestamp parses and is fresh, and the replay cache has no hit. -/
theorem oauth_valid_eq_ok (cfg : Config) (method base_url : String)
    (args : List (String × String)) (now : Int) (cache : List CacheEntry) (ts : Int) (sig : String)
    (h1 : argGet args "oauth_consumer_key" = some cfg.client_id)
    (h2 : pyInt (argGet args "oauth_timestamp") = .ok ts)
    (h3 : ¬ now - 300 > ts)
    (h4 : find_one_from_cache cache (argGet args "oauth_nonce") (argGet args "oauth_timestamp") now = none)
    (h5 : argGet args "oauth_signature" = some sig) :
    oauth_is_signature_valid cfg method base_url args now cache =
      .ok (strBytes sig == generate_signature method base_url args cfg.client_secret) := by
  simp only [oauth_is_signature_valid]
  rw [h1, h2, h4, h5]
  simp [h3]

/-- A mismatched (or absent) consumer key makes the signature check fail. -/
theorem oauth_invalid_consumer (cfg : Config) (method base_url : String)
    (args : List (String × String)) (now : Int) (cache : List CacheEntry)
    (h : argGet args "oauth_consumer_key" ≠ some cfg.client_id) :
    oauth_is_signature_valid cfg method base_url args now cache = .ok false := by
  simp only [oauth_is_signature_valid]
  rw [if_pos h]

/-- A missing or non-numeric timestamp raises out of the signature check once
the consumer key matches. -/
theorem oauth_ts_error (cfg : Config) (method base_url : String)
    (args : List (String × String)) (now : Int) (cache : List CacheEntry) (e : String)
    (h1 : argGet args "oauth_consumer_key" = some cfg.client_id)
    (h2 : pyInt (argGet args "oauth_timestamp") = .error e) :
    oauth_is_signature_valid cfg method base_url args now cache = .error e := by
  simp only [oauth_is_signature_valid]
  rw [h1, h2]
  simp

/-- A stale timestamp makes the signature check fail. -/
theorem oauth_stale (cfg : Config) (method base_url : String)
    (args : List (String × String)) (now : Int) (cache : List CacheEntry) (ts : Int)
    (h1 : argGet args "oauth_consumer_key" = some cfg.client_id)
    (h2 : pyInt (argGet args "oauth_timestamp") = .ok ts)
    (h3 : now - 300 > ts) :
    oauth_is_signature_valid cfg method base_url args now cache = .ok false := by
  simp only [oauth_is_signature_valid]
  rw [h1, h2]
  simp [h3]

/-- A replay-cache hit makes the signature check fail. -/
theorem oauth_replay (cfg : Config) (method base_url : String)
    (args : List (String × String)) (now : Int) (cache : List CacheEntry) (ts : Int)
    (h1 : argGet args "oauth_consumer_key" = some cfg.client_id)
    (h2 : pyInt (argGet args "oauth_timestamp") = .ok ts)
    (h3 : ¬ now - 300 > ts)
    (h4 : (find_one_from_cache cache (argGet args "oauth_nonce") (argGet args "oauth_timestamp") now).isSome) :
    oauth_is_signature_valid cfg method base_url args now cache = .ok false := by
  simp only [oauth_is_signature_valid]
  rw [h1, h2]
  simp [h3, h4]

/-- A missing oauth_signature raises once every earlier check has passed. -/
theorem oauth_sig_missing (cfg : Config) (method base_url : String)
    (args : List (String × String)) (now : Int) (cache : List CacheEntry) (ts : Int)
    (h1 : argGet args "oauth_consumer_key" = some cfg.client_id)
    (h2 : pyInt (argGet args "oauth_timestamp") = .ok ts)
    (h3 : ¬ now - 300 > ts)
    (h4 : find_one_from_cache cache (argGet args "oauth_nonce") (argGet args "oauth_timestamp") now = none)
    (h5 : argGet args "oauth_signature" = none) :
    oauth_is_signature_valid cfg method base_url args now cache = .error "AttributeError" := by
  simp only [oauth_is_signature_valid]
  rw [h1, h2, h4, h5]
  simp [h3]

/-- Inversion: a passed signature check pins down every intermediate fact. -/
theorem oauth_valid_true_inv (cfg : Config) (method base_url : String)
    (args : List (String × String)) (now : Int) (cache : List CacheEntry)
    (h : oauth_is_signature_valid cfg method base_url args now cache = .ok true) :
    argGet args "oauth_consumer_key" = some cfg.client_id ∧
    (∃ ts, pyInt (argGet args "oauth_timestamp") = .ok ts ∧ ¬ now - 300 > ts) ∧
    find_one_from_cache cache (argGet args "oauth_nonce") (argGet args "oauth_timestamp") now = none ∧
    ∃ sig, argGet args "oauth_signature" = some sig ∧
      strBytes sig = generate_signature method base_url args cfg.client_secret := by
  simp only [oauth_is_signature_valid] at h
  split at h
  · exact absurd h (by simp)
  · rename_i hkey
    push_neg at hkey
    refine ⟨hkey, ?_⟩
    split at h
    · exact absurd h (by simp)
    · rename_i ts hts
      split at h
      · exact absurd h (by simp)
      · rename_i hfresh
        split at h
        · exact absurd h (by simp)
        · rename_i hdup
          refine ⟨⟨ts, hts, hfresh⟩, ?_, ?_⟩
          · cases hfind : find_one_from_cache cache (argGet args "oauth_nonce")
                (argGet args "oauth_timestamp") now with
            | none => rfl
            | some e => rw [hfind] at hdup; exact absurd rfl hdup
          · split at h
            · exact absurd h (by simp)
            · rename_i sig hsig
              refine ⟨sig, hsig, ?_⟩
              have := h
              simp only [Except.ok.injEq] at this
              exact eq_of_beq (by rw [this])

/-- The gate accepts and writes the replay cache when the signature check passes. -/
theorem gateRun_accept (cfg : Config) (method base_url : String)
    (args : List (String × String)) (now : Int) (cache : List CacheEntry)
    (h : oauth_is_signature_valid cfg method base_url args now cache = .ok true) :
    oauthGateRun cfg method base_url args now cache =
      .accepted (save_to_cache cache (argGet args "oauth_nonce") (argGet args "oauth_timestamp") 300 now) := by
  simp [oauthGateRun, h]

/-- The gate aborts with 401 and leaves the cache alone when the check fails. -/
theorem gateRun_reject (cfg : Config) (method base_url : String)
    (args : List (String × String)) (now : Int) (cache : List CacheEntry)
    (h : oauth_is_signature_valid cfg method base_url args now cache = .ok false) :
    oauthGateRun cfg method base_url args now cache = .abort401 cache := by
  simp [oauthGateRun, h]

/-- The gate propagates an exception and leaves the cache alone. -/
theorem gateRun_error (cfg : Config) (method base_url : String)
    (args : List (String × String)) (now : Int) (cache : List CacheEntry) (e : String)
    (h : oauth_is_signature_valid cfg method base_url args now cache = .error e) :
    oauthGateRun cfg method base_url args now cache = .pyError e cache := by
  simp [oauthGateRun, h]

/-- The worked scenario passes the signature check: the oauth_signature value
is the one the validator itself computes. -/
theorem demo_valid_true :
    oauth_is_signature_valid demoCfg "GET" demoUrl demoArgs 1000 [] = .ok true := by
  rw [oauth_valid_eq_ok demoCfg "GET" demoUrl demoArgs 1000 [] 1000
      "7oZ5QoAOlBKv9+m/A8JOpFeG2oQ=" (by decide) (by decide) (by decide) rfl (by decide)]
  show Except.ok (strBytes "7oZ5QoAOlBKv9+m/A8JOpFeG2oQ=" ==
      generate_signature "GET" demoUrl demoArgs "shh") = Except.ok true
  rw [d0_sig_eq]
  decide

/-- Changing foo while keeping the old signature fails the signature check. -/
theorem demo_foo_false :
    oauth_is_signature_valid demoCfg "GET" demoUrl demoArgsFoo 1000 [] = .ok false := by
  rw [oauth_valid_eq_ok demoCfg "GET" demoUrl demoArgsFoo 1000 [] 1000
      "7oZ5QoAOlBKv9+m/A8JOpFeG2oQ=" (by decide) (by decide) (by decide) rfl (by decide)]
  show Except.ok (strBytes "7oZ5QoAOlBKv9+m/A8JOpFeG2oQ=" ==
      generate_signature "GET" demoUrl demoArgsFoo "shh") = Except.ok false
  rw [dfoo_sig_eq]
  decide

/-- Changing x while keeping the old signature fails the signature check. -/
theorem demo_x_false :
    oauth_is_signature_valid demoCfg "GET" demoUrl demoArgsX 1000 [] = .ok false := by
  rw [oauth_valid_eq_ok demoCfg "GET" demoUrl demoArgsX 1000 [] 1000
      "7oZ5QoAOlBKv9+m/A8JOpFeG2oQ=" (by decide) (by decide) (by decide) rfl (by decide)]
  show Except.ok (strBytes "7oZ5QoAOlBKv9+m/A8JOpFeG2oQ=" ==
      generate_signature "GET" demoUrl demoArgsX "shh") = Except.ok false
  rw [dx_sig_eq]
  decide

/-- The gate accepts the worked scenario and records its nonce and timestamp
in the replay cache with the 300-second TTL. -/
theorem demo_accept :
    validate_oauth_signature demoCfg none "GET" demoUrl demoArgs 1000 [] =
      .accepted [⟨some "nonce1", some "1000", 1300⟩] := by
  show oauthGateRun demoCfg "GET" demoUrl demoArgs 1000 [] = _
  rw [gateRun_accept demoCfg "GET" demoUrl demoArgs 1000 [] demo_valid_true]
  decide

/-- Replacing the oauth_signature value leaves every other lookup unchanged. -/
theorem argGet_setSig_ne (args : List (String × String)) (v k : String)
    (hk : k ≠ "oauth_signature") :
    argGet (setSigValue args v) k = argGet args k := by
  induction args with
  | nil => rfl
  | cons p rest ih =>
    by_cases hps : p.1 = "oauth_signature"
    · have hpk : (p.1 == k) = false := by
        simp only [beq_eq_false_iff_ne]
        rw [hps]
        exact fun hcontra => hk hcontra.symm
      simp only [setSigValue, List.map_cons, if_pos hps, argGet, List.find?_cons] at *
      simp only [hpk, cond_false]
      exact ih
    · simp only [setSigValue, List.map_cons, if_neg hps, argGet, List.find?_cons] at *
      cases hpk : (p.1 == k) with
      | true => simp
      | false => simp only [cond_false]; exact ih

/-- Replacing the oauth_signature value rewrites exactly the signature lookup. -/
theorem argGet_setSig_sig (args : List (String × String)) (v : String) :
    argGet (setSigValue args v) "oauth_signature" =
      (argGet args "oauth_signature").map (fun _ => v) := by
  induction args with
  | nil => rfl
  | cons p rest ih =>
    by_cases hps : p.1 = "oauth_signature"
    · have hpk : (p.1 == "oauth_signature") = true := by simp [hps]
      simp only [setSigValue, List.map_cons, if_pos hps, argGet, List.find?_cons] at *
      simp [hpk]
    · have hpk : (p.1 == "oauth_signature") = false := by simp [hps]
      simp only [setSigValue, List.map_cons, if_neg hps, argGet, List.find?_cons] at *
      simp only [hpk, cond_false]
      exact ih

/-- The filtered dict view the signature message is built from does not see the
oauth_signature value. -/
theorem toDict_filter_setSig (v : String) (seen : List String) (args : List (String × String)) :
    (toDictGo seen (setSigValue args v)).filter (fun p => p.1 != "oauth_signature") =
      (toDictGo seen args).filter (fun p => p.1 != "oauth_signature") := by
  induction args generalizing seen with
  | nil => rfl
  | cons p rest ih =>
    by_cases hps : p.1 = "oauth_signature"
    · simp only [setSigValue, List.map_cons, if_pos hps, toDictGo]
      by_cases hseen : seen.contains p.1
      · simp only [hseen, if_pos rfl]
        exact ih seen
      · simp only [eq_self_iff_true, hseen, Bool.false_eq_true, if_false, List.filter_cons]
        have hkeep : ((p.1, v).1 != "oauth_signature") = false := by simp [hps]
        have hkeep2 : (p.1 != "oauth_signature") = false := by simp [hps]
        simp only [hkeep, hkeep2, Bool.false_eq_true, if_false]
        exact ih (p.1 :: seen)
    · simp only [setSigValue, List.map_cons, if_neg hps, toDictGo]
      by_cases hseen : seen.contains p.1
      · simp only [hseen, if_pos rfl]
        exact ih seen
      · simp only [hseen, Bool.false_eq_true, if_false, List.filter_cons]
        have ihx := ih (p.1 :: seen)
        simp only [setSigValue] at ihx
        rw [ihx]

/-- The computed signature is independent of the oauth_signature value. -/
theorem generate_signature_setSig (method base_url : String) (args : List (String × String))
    (secret v : String) :
    generate_signature method base_url (setSigValue args v) secret =
      generate_signature method base_url args secret := by
  unfold generate_signature sigMessage sortedQueryBytes toDict
  rw [toDict_filter_setSig]

/-- C10: the computed expected signature is the same for any two requests
identical except in the oauth_signature value, and the accept decision depends
on the oauth_signature value only through the final byte comparison against
that expected value: whenever two candidate values compare equally against the
expected signature, the whole check returns the same result. -/
theorem c10_signature_noninterference :
    (∀ (method base_url : String) (args : List (String × String)) (secret v : String),
        generate_signature method base_url (setSigValue args v) secret =
          generate_signature method base_url args secret) ∧
    (∀ (cfg : Config) (method base_url : String) (args : List (String × String))
        (now : Int) (cache : List CacheEntry) (v w : String),
        (strBytes v == generate_signature method base_url args cfg.client_secret) =
          (strBytes w == generate_signature method base_url args cfg.client_secret) →
        oauth_is_signature_valid cfg method base_url (setSigValue args v) now cache =
          oauth_is_signature_valid cfg method base_url (setSigValue args w) now cache) := by
  constructor
  · exact fun m u args s v => generate_signature_setSig m u args s v
  · intro cfg method base_url args now cache v w h
    simp only [oauth_is_signature_valid]
    rw [argGet_setSig_ne args v "oauth_consumer_key" (by decide),
        argGet_setSig_ne args w "oauth_consumer_key" (by decide),
        argGet_setSig_ne args v "oauth_timestamp" (by decide),
        argGet_setSig_ne args w "oauth_timestamp" (by decide),
        argGet_setSig_ne args v "oauth_nonce" (by decide),
        argGet_setSig_ne args w "oauth_nonce" (by decide),
        argGet_setSig_sig args v, argGet_setSig_sig args w,
        generate_signature_setSig method base_url args cfg.client_secret v,
        generate_signature_setSig method base_url args cfg.client_secret w]
    cases hs : argGet args "oauth_signature" with
    | none => rfl
    | some s0 =>
        simp only [Option.map_some']
        rw [h]

/-- Witness for C10: two concrete wrong signature values yield the same check
outcome on the worked scenario. -/
theorem c10_signature_noninterference_witness :
    oauth_is_signature_valid demoCfg "GET" demoUrl (setSigValue demoArgs "AAA") 1000 [] =
      oauth_is_signature_valid demoCfg "GET" demoUrl (setSigValue demoArgs "BBB") 1000 [] :=
  c10_signature_noninterference.2 demoCfg "GET" demoUrl demoArgs 1000 [] "AAA" "BBB"
    (by show (strBytes "AAA" == generate_signature "GET" demoUrl demoArgs "shh") =
          (strBytes "BBB" == generate_signature "GET" demoUrl demoArgs "shh")
        rw [d0_sig_eq]
        decide)

/-- C1: the request is accepted only if the raw oauth_signature byte-equals the
recomputed expected signature, and on the worked scenario (GET on the test
endpoint with foo=bar, x=1, secret shh) the validator accepts its own computed
signature while changing either query parameter value with the old signature
kept is rejected with 401. -/
theorem c1_signature_validation :
    (∀ (cfg : Config) (method base_url : String) (args : List (String × String))
        (now : Int) (cache : List CacheEntry) (sig : String),
        argGet args "oauth_signature" = some sig →
        oauth_is_signature_valid cfg method base_url args now cache = .ok true →
        strBytes sig = generate_signature method base_url args cfg.client_secret) ∧
    validate_oauth_signature demoCfg none "GET" demoUrl demoArgs 1000 [] =
      .accepted [⟨some "nonce1", some "1000", 1300⟩] ∧
    validate_oauth_signature demoCfg none "GET" demoUrl demoArgsFoo 1000 [] = .abort401 [] ∧
    validate_oauth_signature demoCfg none "GET" demoUrl demoArgsX 1000 [] = .abort401 [] := by
  refine ⟨?_, demo_accept, ?_, ?_⟩
  · intro cfg method base_url args now cache sig h5 hok
    obtain ⟨-, -, -, sig2, h5b, hbytes⟩ := oauth_valid_true_inv cfg method base_url args now cache hok
    rw [h5] at h5b
    injection h5b with h5c
    rw [h5c]
    exact hbytes
  · exact gateRun_reject demoCfg "GET" demoUrl demoArgsFoo 1000 [] demo_foo_false
  · exact gateRun_reject demoCfg "GET" demoUrl demoArgsX 1000 [] demo_x_false

/-- Witness for C1: on the worked scenario the accepted signature byte-equals
the recomputed one. -/
theorem c1_signature_validation_witness :
    strBytes "7oZ5QoAOlBKv9+m/A8JOpFeG2oQ=" =
      generate_signature "GET" demoUrl demoArgs demoCfg.client_secret :=
  c1_signature_validation.1 demoCfg "GET" demoUrl demoArgs 1000 []
    "7oZ5QoAOlBKv9+m/A8JOpFeG2oQ=" (by decide) demo_valid_true

/-- find? finds something in a list extended by a matching element. -/
theorem find_append_singleton_isSome {α} (p : α → Bool) (l : List α) (e : α)
    (he : p e = true) : ((l ++ [e]).find? p).isSome := by
  induction l with
  | nil =>
      rw [List.nil_append, List.find?_cons_of_pos _ he]
      rfl
  | cons x xs ih =>
      cases hx : p x with
      | true =>
          rw [List.cons_append, List.find?_cons_of_pos _ hx]
          rfl
      | false =>
          rw [List.cons_append, List.find?_cons_of_neg _ (by simp [hx])]
          exact ih

/-- C2: the gate writes the replay cache exactly on acceptance, inserting the
raw nonce/timestamp pair with the 300-second TTL, and leaves the cache alone on
every other outcome; consequently a request accepted once is rejected with 401
on a retry with the same arguments while the cache entry is unexpired, the
cache again unchanged. -/
theorem c2_replay_cache :
    (∀ (cfg : Config) (methods : Option (List String)) (method base_url : String)
        (args : List (String × String)) (now : Int) (cache : List CacheEntry),
        validate_oauth_signature cfg methods method base_url args now cache =
          .accepted (save_to_cache cache (argGet args "oauth_nonce")
            (argGet args "oauth_timestamp") 300 now) ∨
        validate_oauth_signature cfg methods method base_url args now cache = .skipped cache ∨
        validate_oauth_signature cfg methods method base_url args now cache = .abort401 cache ∨
        ∃ e, validate_oauth_signature cfg methods method base_url args now cache = .pyError e cache) ∧
    (∀ (cfg : Config) (method base_url : String) (args : List (String × String))
        (now now2 : Int) (cache cache2 : List CacheEntry),
        validate_oauth_signature cfg none method base_url args now cache = .accepted cache2 →
        now2 < now + 300 →
        validate_oauth_signature cfg none method base_url args now2 cache2 = .abort401 cache2) := by
  have hrun : ∀ (cfg : Config) (method base_url : String) (args : List (String × String))
      (now : Int) (cache : List CacheEntry),
      oauthGateRun cfg method base_url args now cache =
        .accepted (save_to_cache cache (argGet args "oauth_nonce")
          (argGet args "oauth_timestamp") 300 now) ∨
      oauthGateRun cfg method base_url args now cache = .abort401 cache ∨
      ∃ e, oauthGateRun cfg method base_url args now cache = .pyError e cache := by
    intro cfg method base_url args now cache
    cases hv : oauth_is_signature_valid cfg method base_url args now cache with
    | error e => exact Or.inr (Or.inr ⟨e, gateRun_error cfg method base_url args now cache e hv⟩)
    | ok b =>
        cases b with
        | true => exact Or.inl (gateRun_accept cfg method base_url args now cache hv)
        | false => exact Or.inr (Or.inl (gateRun_reject cfg method base_url args now cache hv))
  constructor
  · intro cfg methods method base_url args now cache
    cases methods with
    | none =>
        rcases hrun cfg method base_url args now cache with h | h | h
        · exact Or.inl h
        · exact Or.inr (Or.inr (Or.inl h))
        · exact Or.inr (Or.inr (Or.inr h))
    | some ms =>
        cases hm : ms.contains method with
        | true =>
            have hv : validate_oauth_signature cfg (some ms) method base_url args now cache =
                oauthGateRun cfg method base_url args now cache := by
              simp only [validate_oauth_signature, hm, if_true]
            rw [hv]
            rcases hrun cfg method base_url args now cache with h | h | h
            · exact Or.inl h
            · exact Or.inr (Or.inr (Or.inl h))
            · exact Or.inr (Or.inr (Or.inr h))
        | false =>
            refine Or.inr (Or.inl ?_)
            simp only [validate_oauth_signature, hm, Bool.false_eq_true, if_false]
  · intro cfg method base_url args now now2 cache cache2 hacc hfresh
    have hg : oauthGateRun cfg method base_url args now cache = .accepted cache2 := hacc
    unfold oauthGateRun at hg
    cases hv : oauth_is_signature_valid cfg method base_url args now cache with
    | error e => rw [hv] at hg; exact absurd hg (by simp)
    | ok b =>
        cases b with
        | false => rw [hv] at hg; exact absurd hg (by simp)
        | true =>
            rw [hv] at hg
            have hc2 : cache2 = save_to_cache cache (argGet args "oauth_nonce")
                (argGet args "oauth_timestamp") 300 now := by
              injection hg with hx
              exact hx.symm
            obtain ⟨hkey, ⟨ts, hts, -⟩, -, -⟩ :=
              oauth_valid_true_inv cfg method base_url args now cache hv
            by_cases hstale : now2 - 300 > ts
            · exact gateRun_reject cfg method base_url args now2 cache2
                (oauth_stale cfg method base_url args now2 cache2 ts hkey hts hstale)
            · refine gateRun_reject cfg method base_url args now2 cache2
                (oauth_replay cfg method base_url args now2 cache2 ts hkey hts hstale ?_)
              rw [hc2]
              unfold find_one_from_cache save_to_cache
              exact find_append_singleton_isSome _ cache _ (by simp [hfresh])

/-- Witness for C2: the worked scenario is accepted once, with the cache entry
written, and immediately rejected on the identical retry. -/
theorem c2_replay_cache_witness :
    validate_oauth_signature demoCfg none "GET" demoUrl demoArgs 1000 [] =
      .accepted [⟨some "nonce1", some "1000", 1300⟩] ∧
    validate_oauth_signature demoCfg none "GET" demoUrl demoArgs 1000
        [⟨some "nonce1", some "1000", 1300⟩] =
      .abort401 [⟨some "nonce1", some "1000", 1300⟩] :=
  ⟨demo_accept,
   c2_replay_cache.2 demoCfg "GET" demoUrl demoArgs 1000 1000 []
     [⟨some "nonce1", some "1000", 1300⟩] demo_accept (by decide)⟩

/-- Counterexample for C3: with a matching consumer key, a request with no
oauth_timestamp raises TypeError out of the gate (an unhandled error, not the
401 abort the claim requires); a non-integer timestamp raises ValueError; and
a request passing every earlier check but missing oauth_signature raises
AttributeError. -/
theorem c3_counterexample :
    validate_oauth_signature demoCfg none "GET" demoUrl
        [("oauth_consumer_key", "client")] 1000 [] = .pyError "TypeError" [] ∧
    validate_oauth_signature demoCfg none "GET" demoUrl
        [("oauth_consumer_key", "client"), ("oauth_timestamp", "abc")] 1000 [] =
      .pyError "ValueError" [] ∧
    validate_oauth_signature demoCfg none "GET" demoUrl
        [("oauth_consumer_key", "client"), ("oauth_nonce", "nonce1"), ("oauth_timestamp", "1000")]
        1000 [] = .pyError "AttributeError" [] := by
  refine ⟨?_, ?_, ?_⟩ <;> decide

/-- C3 amended: each of the four rejection causes (consumer-key mismatch, stale
timestamp, replay hit, signature mismatch) surfaces as the 401 abort with the
cache unchanged; but a missing or non-integer oauth_timestamp under a matching
consumer key propagates the int-conversion exception, and a missing
oauth_signature once every earlier check passed propagates AttributeError —
neither is turned into the 401 outcome. -/
theorem c3_rejects_401_but_malformed_raises :
    (∀ (cfg : Config) (method base_url : String) (args : List (String × String))
        (now : Int) (cache : List CacheEntry),
        argGet args "oauth_consumer_key" ≠ some cfg.client_id →
        validate_oauth_signature cfg none method base_url args now cache = .abort401 cache) ∧
    (∀ (cfg : Config) (method base_url : String) (args : List (String × String))
        (now : Int) (cache : List CacheEntry) (ts : Int),
        argGet args "oauth_consumer_key" = some cfg.client_id →
        pyInt (argGet args "oauth_timestamp") = .ok ts → now - 300 > ts →
        validate_oauth_signature cfg none method base_url args now cache = .abort401 cache) ∧
    (∀ (cfg : Config) (method base_url : String) (args : List (String × String))
        (now : Int) (cache : List CacheEntry) (ts : Int),
        argGet args "oauth_consumer_key" = some cfg.client_id →
        pyInt (argGet args "oauth_timestamp") = .ok ts → ¬ now - 300 > ts →
        (find_one_from_cache cache (argGet args "oauth_nonce")
          (argGet args "oauth_timestamp") now).isSome →
        validate_oauth_signature cfg none method base_url args now cache = .abort401 cache) ∧
    (∀ (cfg : Config) (method base_url : String) (args : List (String × String))
        (now : Int) (cache : List CacheEntry) (ts : Int) (sig : String),
        argGet args "oauth_consumer_key" = some cfg.client_id →
        pyInt (argGet args "oauth_timestamp") = .ok ts → ¬ now - 300 > ts →
        find_one_from_cache cache (argGet args "oauth_nonce")
          (argGet args "oauth_timestamp") now = none →
        argGet args "oauth_signature" = some sig →
        strBytes sig ≠ generate_signature method base_url args cfg.client_secret →
        validate_oauth_signature cfg none method base_url args now cache = .abort401 cache) ∧
    (∀ (cfg : Config) (method base_url : String) (args : List (String × String))
        (now : Int) (cache : List CacheEntry) (e : String),
        argGet args "oauth_consumer_key" = some cfg.client_id →
        pyInt (argGet args "oauth_timestamp") = .error e →
        validate_oauth_signature cfg none method base_url args now cache = .pyError e cache) ∧
    (∀ (cfg : Config) (method base_url : String) (args : List (String × String))
        (now : Int) (cache : List CacheEntry) (ts : Int),
        argGet args "oauth_consumer_key" = some cfg.client_id →
        pyInt (argGet args "oauth_timestamp") = .ok ts → ¬ now - 300 > ts →
        find_one_from_cache cache (argGet args "oauth_nonce")
          (argGet args "oauth_timestamp") now = none →
        argGet args "oauth_signature" = none →
        validate_oauth_signature cfg none method base_url args now cache =
          .pyError "AttributeError" cache) := by
  refine ⟨?_, ?_, ?_, ?_, ?_, ?_⟩
  · intro cfg method base_url args now cache h
    exact gateRun_reject cfg method base_url args now cache
      (oauth_invalid_consumer cfg method base_url args now cache h)
  · intro cfg method base_url args now cache ts h1 h2 h3
    exact gateRun_reject cfg method base_url args now cache
      (oauth_stale cfg method base_url args now cache ts h1 h2 h3)
  · intro cfg method base_url args now cache ts h1 h2 h3 h4
    exact gateRun_reject cfg method base_url args now cache
      (oauth_replay cfg method base_url args now cache ts h1 h2 h3 h4)
  · intro cfg method base_url args now cache ts sig h1 h2 h3 h4 h5 h6
    refine gateRun_reject cfg method base_url args now cache ?_
    rw [oauth_valid_eq_ok cfg method base_url args now cache ts sig h1 h2 h3 h4 h5]
    have : (strBytes sig == generate_signature method base_url args cfg.client_secret) = false :=
      beq_eq_false_iff_ne.mpr h6
    rw [this]
  · intro cfg method base_url args now cache e h1 h2
    exact gateRun_error cfg method base_url args now cache e
      (oauth_ts_error cfg method base_url args now cache e h1 h2)
  · intro cfg method base_url args now cache ts h1 h2 h3 h4 h5
    exact gateRun_error cfg method base_url args now cache "AttributeError"
      (oauth_sig_missing cfg method base_url args now cache ts h1 h2 h3 h4 h5)

/-- Witness for C3: concrete instances of a consumer-key 401, a TypeError on a
missing timestamp, and an AttributeError on a missing signature. -/
theorem c3_rejects_401_but_malformed_raises_witness :
    validate_oauth_signature demoCfg none "GET" demoUrl [("foo", "bar")] 1000 [] =
      .abort401 [] ∧
    validate_oauth_signature demoCfg none "GET" demoUrl
        [("oauth_consumer_key", "client")] 1000 [] = .pyError "TypeError" [] ∧
    validate_oauth_signature demoCfg none "GET" demoUrl
        [("oauth_consumer_key", "client"), ("oauth_nonce", "nonce1"), ("oauth_timestamp", "1000")]
        1000 [] = .pyError "AttributeError" [] :=
  ⟨c3_rejects_401_but_malformed_raises.1 demoCfg "GET" demoUrl [("foo", "bar")] 1000 []
     (by decide),
   c3_rejects_401_but_malformed_raises.2.2.2.2.1 demoCfg "GET" demoUrl
     [("oauth_consumer_key", "client")] 1000 [] "TypeError" (by decide) (by decide),
   c3_rejects_401_but_malformed_raises.2.2.2.2.2 demoCfg "GET" demoUrl
     [("oauth_consumer_key", "client"), ("oauth_nonce", "nonce1"), ("oauth_timestamp", "1000")]
     1000 [] 1000 (by decide) (by decide) (by decide) rfl (by decide)⟩

/-- Counterexample for C4: a bound session id whose record is absent from the
store resolves to SessionExpired, not the SessionNotFound the claim requires
for a missing record. -/
theorem c4_counterexample :
    sessionResolve ⟨some "aaaaaaaaaaaaaaaaaaaaaaaa", none⟩ [] 0 =
      .sessionExpired ⟨none, none⟩ [] := by
  decide

/-- The not-found branch of resolution: no truthy bound id and no firing
cached-expiry check yields SessionNotFound. -/
theorem resolve_notFound (flask : Flask) (store : List SessionRec) (now : Int)
    (h1 : truthyStr flask.session_id = false)
    (h2 : (truthyInt flask.expires_at && decide (flask.expires_at.getD 0 ≤ now)) = false) :
    sessionResolve flask store now = .sessionNotFound ⟨none, none⟩ store := by
  obtain ⟨osid, oexp⟩ := flask
  have hcore : sessionResolveCore ⟨osid, oexp⟩ none store now = .sessionNotFound ⟨none, none⟩ store := by
    unfold sessionResolveCore
    rw [if_neg]
    simp only [h1, h2, Option.isNone_none, Bool.false_and, Bool.false_or, Bool.false_eq_true,
      not_false_eq_true]
  cases osid with
  | none => exact hcore
  | some s =>
      have hs : s = "" := by simpa [truthyStr] using h1
      subst hs
      simp only [sessionResolve]
      rw [if_neg (by decide)]
      exact hcore

/-- The missing-record branch of resolution: a truthy, well-formed bound id
with no readable record yields SessionExpired. -/
theorem resolve_expired_missing (store : List SessionRec) (now : Int) (sid : String)
    (oexp : Option Int) (hne : sid ≠ "") (hvalid : isValidObjectId sid)
    (hnone : readableSession store sid now = none) :
    sessionResolve ⟨some sid, oexp⟩ store now = .sessionExpired ⟨none, none⟩ store := by
  simp only [sessionResolve]
  rw [if_pos (by simp [truthyStr, hne])]
  unfold db_get_session
  rw [if_pos hvalid, hnone]
  show sessionResolveCore ⟨some sid, oexp⟩ none store now = _
  unfold sessionResolveCore
  rw [if_pos]
  simp [truthyStr, hne]

/-- The cached-expiry branch with no bound id: a firing cached-expiry check
yields SessionExpired even though the store was never consulted. -/
theorem resolve_expired_cachedOnly (store : List SessionRec) (now : Int) (e : Int)
    (hcond : (truthyInt (some e) && decide (e ≤ now)) = true) :
    sessionResolve ⟨none, some e⟩ store now = .sessionExpired ⟨none, none⟩ store := by
  show sessionResolveCore ⟨none, some e⟩ none store now = _
  unfold sessionResolveCore
  rw [if_pos]
  simp [hcond]

/-- The cached-expiry branch with a bound id whose record is readable: the
store expiry is refreshed first, then SessionExpired is raised from the cached
expiry check. -/
theorem resolve_expired_cachedWithRecord (store : List SessionRec) (now : Int) (sid : String)
    (e : Int) (r : SessionRec) (hne : sid ≠ "") (hvalid : isValidObjectId sid)
    (hfound : readableSession store sid now = some r)
    (hcond : (truthyInt (some e) && decide (e ≤ now)) = true) :
    sessionResolve ⟨some sid, some e⟩ store now =
      .sessionExpired ⟨none, none⟩
        (updateFirst (fun q => q.id == sid && decide (now < q.expires_at))
          (fun q => { q with expires_at := now + r.expires_in }) store) := by
  simp only [sessionResolve]
  rw [if_pos (by simp [truthyStr, hne])]
  unfold db_get_session
  rw [if_pos hvalid, hfound]
  show sessionResolveCore ⟨some sid, some e⟩ (some r)
      (updateFirst (fun q => q.id == sid && decide (now < q.expires_at))
        (fun q => { q with expires_at := now + r.expires_in }) store) now = _
  unfold sessionResolveCore
  rw [if_pos]
  simp [hcond]

/-- C4 amended: on resolution of an existing session, SessionNotFound is raised
exactly when no (truthy) session id is bound and the cached-expiry check does
not fire; a bound id whose record is absent from the store raises
SessionExpired (the code folds a missing record into expiry), and a passed
locally-cached expiry raises SessionExpired whether or not a record exists. -/
theorem c4_resolution_errors :
    (∀ (flask : Flask) (store : List SessionRec) (now : Int),
        truthyStr flask.session_id = false →
        (truthyInt flask.expires_at && decide (flask.expires_at.getD 0 ≤ now)) = false →
        sessionResolve flask store now = .sessionNotFound ⟨none, none⟩ store) ∧
    (∀ (store : List SessionRec) (now : Int) (sid : String) (oexp : Option Int),
        sid ≠ "" → isValidObjectId sid → readableSession store sid now = none →
        sessionResolve ⟨some sid, oexp⟩ store now = .sessionExpired ⟨none, none⟩ store) ∧
    (∀ (store : List SessionRec) (now : Int) (e : Int),
        (truthyInt (some e) && decide (e ≤ now)) = true →
        sessionResolve ⟨none, some e⟩ store now = .sessionExpired ⟨none, none⟩ store) ∧
    (∀ (store : List SessionRec) (now : Int) (sid : String) (e : Int) (r : SessionRec),
        sid ≠ "" → isValidObjectId sid → readableSession store sid now = some r →
        (truthyInt (some e) && decide (e ≤ now)) = true →
        sessionResolve ⟨some sid, some e⟩ store now =
          .sessionExpired ⟨none, none⟩
            (updateFirst (fun q => q.id == sid && decide (now < q.expires_at))
              (fun q => { q with expires_at := now + r.expires_in }) store)) :=
  ⟨resolve_notFound, resolve_expired_missing, resolve_expired_cachedOnly,
   resolve_expired_cachedWithRecord⟩

/-- Witness for C4: with nothing bound, resolution is SessionNotFound; with an
id bound to an empty store, resolution is SessionExpired. -/
theorem c4_resolution_errors_witness :
    sessionResolve ⟨none, none⟩ [] 0 = .sessionNotFound ⟨none, none⟩ [] ∧
    sessionResolve ⟨some "bbbbbbbbbbbbbbbbbbbbbbbb", none⟩ [] 5 =
      .sessionExpired ⟨none, none⟩ [] :=
  ⟨c4_resolution_errors.1 ⟨none, none⟩ [] 0 (by decide) (by decide),
   c4_resolution_errors.2.1 [] 5 "bbbbbbbbbbbbbbbbbbbbbbbb" none (by decide) (by decide) rfl⟩

/-- C5: the sliding-refresh divergence.  A session created at time 0 with a
3600-second duration (store expiry 3600, side-channel cached expiry 3600) is
resolved at 3599: the store expiry is extended to 7199, but get_session
returns the pre-refresh document, so the side channel re-caches 3600 instead
of 7199.  Resolving again at 3601 then raises SessionExpired from the stale
cached expiry (after refreshing the store expiry to 7201) even though the
store record is valid until 7199. -/
theorem c5_sliding_refresh_divergence :
    sessionResolve ⟨some "aaaaaaaaaaaaaaaaaaaaaaaa", some 3600⟩
        [⟨"aaaaaaaaaaaaaaaaaaaaaaaa", 3600, 3600, [], some true⟩] 3599 =
      .ok ⟨"aaaaaaaaaaaaaaaaaaaaaaaa", 3600, true, []⟩
        ⟨some "aaaaaaaaaaaaaaaaaaaaaaaa", some 3600⟩
        [⟨"aaaaaaaaaaaaaaaaaaaaaaaa", 3600, 7199, [], some true⟩] ∧
    sessionResolve ⟨some "aaaaaaaaaaaaaaaaaaaaaaaa", some 3600⟩
        [⟨"aaaaaaaaaaaaaaaaaaaaaaaa", 3600, 7199, [], some true⟩] 3601 =
      .sessionExpired ⟨none, none⟩
        [⟨"aaaaaaaaaaaaaaaaaaaaaaaa", 3600, 7201, [], some true⟩] := by
  constructor <;> decide

/-- Every session record the creation path inserts carries the default
3600-second duration: a successful create yields the fresh record, stamped
now plus 3600, appended to some store prefix. -/
theorem sessionCreate_stamps_3600 (flask : Flask) (store : List SessionRec)
    (initial_data : List (String × String)) (is_authed : Bool) (newId : String) (now : Int)
    (obj : SessionObj) (flask2 : Flask) (store2 : List SessionRec)
    (h : sessionCreate flask store initial_data is_authed newId now = .ok obj flask2 store2) :
    ∃ pre, store2 = pre ++ [⟨newId, 3600, now + 3600, initial_data, some is_authed⟩] ∧
      obj = ⟨newId, now + 3600, is_authed, initial_data⟩ := by
  have finish_inv : ∀ (storeX : List SessionRec),
      sessionFinish (db_set_session_insert storeX initial_data 3600 (some is_authed) newId now).1
        (db_set_session_insert storeX initial_data 3600 (some is_authed) newId now).2 =
        .ok obj flask2 store2 →
      ∃ pre, store2 = pre ++ [⟨newId, 3600, now + 3600, initial_data, some is_authed⟩] ∧
        obj = ⟨newId, now + 3600, is_authed, initial_data⟩ := by
    intro storeX hx
    simp only [db_set_session_insert, sessionFinish] at hx
    injection hx with h1 h2 h3
    exact ⟨storeX, h3.symm, h1.symm⟩
  obtain ⟨osid, oexp⟩ := flask
  cases osid with
  | none => exact finish_inv store h
  | some sid =>
      simp only [sessionCreate] at h
      by_cases hne : truthyStr (some sid) = true
      · rw [if_pos hne] at h
        split at h
        · exact absurd h (by simp)
        · split at h
          · exact absurd h (by simp)
          · exact finish_inv _ h
        · exact finish_inv _ h
      · rw [if_neg hne] at h
        exact finish_inv store h

/-- C6: assigning a key on an active session re-persists the whole updated
document at once and re-stamps its stored expiry to now plus the record's own
expires_in duration (always the default 3600 this code writes, which the
update also re-asserts); the assignment raises SessionExpired exactly when no
readable record matches the session id; and every record the creation path
writes carries that same 3600-second duration. -/
theorem c6_setitem_persists_and_restamps :
    (∀ (obj : SessionObj) (store : List SessionRec) (k v : String) (now : Int) (r : SessionRec),
        isValidObjectId obj.id →
        readableSession store obj.id now = some r →
        r.expires_in = 3600 →
        sessionSetItem obj store k v now =
          .ok { obj with data := dictSet obj.data k v }
            (updateFirst (fun q => q.id == obj.id && decide (now < q.expires_at))
              (fun _ => ⟨r.id, 3600, now + r.expires_in, dictSet obj.data k v, r.is_authed⟩)
              store)) ∧
    (∀ (obj : SessionObj) (store : List SessionRec) (k v : String) (now : Int),
        isValidObjectId obj.id →
        readableSession store obj.id now = none →
        sessionSetItem obj store k v now = .sessionExpired store) ∧
    (∀ (flask : Flask) (store : List SessionRec) (initial_data : List (String × String))
        (is_authed : Bool) (newId : String) (now : Int) (obj : SessionObj) (flask2 : Flask)
        (store2 : List SessionRec),
        sessionCreate flask store initial_data is_authed newId now = .ok obj flask2 store2 →
        ∃ pre, store2 = pre ++ [⟨newId, 3600, now + 3600, initial_data, some is_authed⟩] ∧
          obj = ⟨newId, now + 3600, is_authed, initial_data⟩) := by
  refine ⟨?_, ?_, sessionCreate_stamps_3600⟩
  · intro obj store k v now r hvalid hfound hr
    simp only [sessionSetItem, db_set_session_update]
    rw [if_pos hvalid, hfound, hr]
  · intro obj store k v now hvalid hnone
    simp only [sessionSetItem, db_set_session_update]
    rw [if_pos hvalid, hnone]

/-- Witness for C6: a concrete assignment re-persists the document with the
re-stamped expiry, and the same assignment against an empty store raises
SessionExpired. -/
theorem c6_setitem_persists_and_restamps_witness :
    sessionSetItem ⟨"cccccccccccccccccccccccc", 500, true, [("k0", "v0")]⟩
        [⟨"cccccccccccccccccccccccc", 3600, 500, [("k0", "v0")], some true⟩] "k0" "v1" 100 =
      .ok ⟨"cccccccccccccccccccccccc", 500, true, [("k0", "v1")]⟩
        [⟨"cccccccccccccccccccccccc", 3600, 3700, [("k0", "v1")], some true⟩] ∧
    sessionSetItem ⟨"cccccccccccccccccccccccc", 500, true, [("k0", "v0")]⟩ [] "k0" "v1" 100 =
      .sessionExpired [] := by
  constructor
  · have h := c6_setitem_persists_and_restamps.1
      ⟨"cccccccccccccccccccccccc", 500, true, [("k0", "v0")]⟩
      [⟨"cccccccccccccccccccccccc", 3600, 500, [("k0", "v0")], some true⟩] "k0" "v1" 100
      ⟨"cccccccccccccccccccccccc", 3600, 500, [("k0", "v0")], some true⟩
      (by decide) (by decide) (by decide)
    rw [h]
    decide
  · exact c6_setitem_persists_and_restamps.2.1
      ⟨"cccccccccccccccccccccccc", 500, true, [("k0", "v0")]⟩ [] "k0" "v1" 100
      (by decide) rfl

/-- updateFirst is the identity when nothing matches. -/
theorem updateFirst_of_find_none {α} (p : α → Bool) (f : α → α) (l : List α)
    (h : l.find? p = none) : updateFirst p f l = l := by
  induction l with
  | nil => rfl
  | cons x xs ih =>
      rw [List.find?_cons] at h
      cases hx : p x with
      | true => rw [hx] at h; simp at h
      | false =>
          rw [hx] at h
          simp only [updateFirst, hx, Bool.false_eq_true, if_false]
          rw [ih h]

/-- Counterexample for C7: a state parameter whose session-id half is not a
well-formed ObjectId makes the callback raise InvalidId out of the ObjectId
constructor — the framework default error path, not the session-expired 400
response the claim requires. -/
theorem c7_counterexample :
    dispatch_request demoCfg (some "garbage.tok") ⟨"tok1", "https://base.example"⟩ ⟨[], []⟩ 0 =
      .pyError "InvalidId" ⟨[], []⟩ := by
  decide

/-- C7 amended: a state whose session-id half is a well-formed ObjectId with no
readable session record gets the session-expired 400 response; but a session-id
half that is not a well-formed ObjectId raises InvalidId unhandled. -/
theorem c7_unknown_state_session :
    (∀ (cfg : Config) (st : String) (env : CallbackEnv) (db : CallbackDb) (now : Int)
        (sid tok : String),
        oauth2StateFromStr st = .ok (sid, tok) →
        isValidObjectId sid →
        readableSession db.sessions sid now = none →
        dispatch_request cfg (some st) env db now = .sessionExpired400 db) ∧
    (∀ (cfg : Config) (st : String) (env : CallbackEnv) (db : CallbackDb) (now : Int)
        (sid tok : String),
        oauth2StateFromStr st = .ok (sid, tok) →
        isValidObjectId sid = false →
        dispatch_request cfg (some st) env db now = .pyError "InvalidId" db) := by
  constructor
  · intro cfg st env db now sid tok hstate hvalid hnone
    obtain ⟨sessions0, installations0⟩ := db
    simp only [dispatch_request, hstate, db_get_session, hvalid, if_true, hnone]
  · intro cfg st env db now sid tok hstate hvalid
    obtain ⟨sessions0, installations0⟩ := db
    simp only [dispatch_request, hstate, db_get_session, hvalid, Bool.false_eq_true, if_false]

/-- Witness for C7: a well-formed but unknown session id in the state gets the
400 session-expired response. -/
theorem c7_unknown_state_session_witness :
    dispatch_request demoCfg (some "bbbbbbbbbbbbbbbbbbbbbbbb.tok")
        ⟨"tok1", "https://base.example"⟩ ⟨[], []⟩ 0 = .sessionExpired400 ⟨[], []⟩ :=
  c7_unknown_state_session.1 demoCfg "bbbbbbbbbbbbbbbbbbbbbbbb.tok"
    ⟨"tok1", "https://base.example"⟩ ⟨[], []⟩ 0 "bbbbbbbbbbbbbbbbbbbbbbbb" "tok"
    (by decide) (by decide) rfl

/-- Counterexample for C8: with no matching installation record, the callback
still completes with the final redirect and the installation store stays
empty — the failed update is reported only by the ignored boolean, not
propagated as a server error. -/
theorem c8_counterexample :
    dispatch_request demoCfg (some "dddddddddddddddddddddddd.tok")
        ⟨"tok1", "https://base.example"⟩
        ⟨[⟨"dddddddddddddddddddddddd", 3600, 1000,
            [("redirect_url", "https://app.example/done"), ("install_id", "inst1")], some true⟩],
          []⟩ 0 =
      .redirectTo "https://app.example/done"
        ⟨[⟨"dddddddddddddddddddddddd", 3600, 3600,
            [("redirect_url", "https://app.example/done"), ("install_id", "inst1")], some true⟩],
          []⟩ := by
  decide

/-- C8 amended: when no installation matches (app_id, install_id) during the
callback, update_installation returns false (logging a warning), the callback
ignores the flag, leaves the installation store unchanged, and proceeds to the
final redirect; nothing is propagated. -/
theorem c8_missing_installation_ignored :
    ∀ (cfg : Config) (st : String) (env : CallbackEnv) (db : CallbackDb) (now : Int)
      (sid tok : String) (sess : SessionRec) (redirect_url install_id : String),
      oauth2StateFromStr st = .ok (sid, tok) →
      isValidObjectId sid →
      readableSession db.sessions sid now = some sess →
      argGet sess.data "redirect_url" = some redirect_url →
      argGet sess.data "install_id" = some install_id →
      db.installations.find? (instMatch cfg.client_id install_id) = none →
      dispatch_request cfg (some st) env db now =
        .redirectTo redirect_url
          ⟨updateFirst (fun q => q.id == sid && decide (now < q.expires_at))
            (fun q => { q with expires_at := now + sess.expires_in }) db.sessions,
           db.installations⟩ := by
  intro cfg st env db now sid tok sess redirect_url install_id hstate hvalid hfound hredir hinst hmiss
  obtain ⟨sessions0, installations0⟩ := db
  simp only at hfound hmiss
  simp only [dispatch_request, hstate, db_get_session, hvalid, if_true, hfound, hredir, hinst,
    tokenManagerSet, tokenManagerInit, db_set_token, db_update_installation_base_url,
    updateFirst_of_find_none _ _ _ hmiss, hmiss, Option.isSome_none, Bool.false_eq_true, if_false]

/-- Witness for C8: a concrete callback with an empty installation store
redirects and leaves the store empty. -/
theorem c8_missing_installation_ignored_witness :
    dispatch_request demoCfg (some "dddddddddddddddddddddddd.tok")
        ⟨"tok1", "https://base.example"⟩
        ⟨[⟨"dddddddddddddddddddddddd", 3600, 1000,
            [("redirect_url", "https://app.example/done"), ("install_id", "inst1")], some true⟩],
          []⟩ 5 =
      .redirectTo "https://app.example/done"
        ⟨[⟨"dddddddddddddddddddddddd", 3600, 3605,
            [("redirect_url", "https://app.example/done"), ("install_id", "inst1")], some true⟩],
          []⟩ := by
  have h := c8_missing_installation_ignored demoCfg "dddddddddddddddddddddddd.tok"
      ⟨"tok1", "https://base.example"⟩
      ⟨[⟨"dddddddddddddddddddddddd", 3600, 1000,
          [("redirect_url", "https://app.example/done"), ("install_id", "inst1")], some true⟩],
        []⟩ 5 "dddddddddddddddddddddddd" "tok"
      ⟨"dddddddddddddddddddddddd", 3600, 1000,
        [("redirect_url", "https://app.example/done"), ("install_id", "inst1")], some true⟩
      "https://app.example/done" "inst1" (by decide) (by decide) (by decide) (by decide)
      (by decide) rfl
  rw [h]
  decide

/-- Counterexample for C9: with no installation record for the pair, set is a
silent no-op and a fresh get returns nothing instead of the stored token. -/
theorem c9_counterexample :
    (tokenManagerGet (tokenManagerInit "app1" "inst1")
        (tokenManagerSet (tokenManagerInit "app1" "inst1") [] "tok1").2).1 = none := by
  decide

/-- C9 amended: the set-then-fresh-get round trip returns the same token value
whenever an installation record for the (app_id, install_id) pair exists in
the store; without one, set_token (update_one with no upsert) persists
nothing. -/
theorem c9_token_roundtrip :
    ∀ (insts : List Installation) (app_id install_id t : String) (tm0 : Option String),
      (insts.find? (instMatch app_id install_id)).isSome →
      (tokenManagerGet (tokenManagerInit app_id install_id)
        (tokenManagerSet ⟨app_id, install_id, tm0⟩ insts t).2).1 = some t := by
  intro insts app_id install_id t tm0 hex
  simp only [tokenManagerSet, tokenManagerGet, tokenManagerInit, db_set_token, db_get_token]
  induction insts with
  | nil => simp at hex
  | cons i rest ih =>
      cases hi : instMatch app_id install_id i with
      | true =>
          simp only [updateFirst, hi, if_pos]
          rw [List.find?_cons_of_pos _ (by simpa [instMatch] using hi)]
      | false =>
          rw [List.find?_cons_of_neg _ (by simp [hi])] at hex
          simp only [updateFirst, hi, Bool.false_eq_true, if_false]
          rw [List.find?_cons_of_neg _ (by simp [hi])]
          exact ih hex

/-- Witness for C9: the round trip on a store holding the installation. -/
theorem c9_token_roundtrip_witness :
    (tokenManagerGet (tokenManagerInit "app1" "inst1")
        (tokenManagerSet ⟨"app1", "inst1", none⟩
          [⟨"app1", "inst1", none, none⟩] "tok1").2).1 = some "tok1" :=
  c9_token_roundtrip [⟨"app1", "inst1", none, none⟩] "app1" "inst1" "tok1" none (by decide)
